import Mathlib

/-!
Verification development for the geister telos execution engine
(src/telos_executor.py and src/realm_tools.py).

The Python code is shallowly embedded: the LLM chat endpoint, the
forced-summary endpoint and the tool dispatch results are modelled as
oracles (functions from call index to response), JSON parsing of a tool
result string into a dict with a truthy "error" key is modelled by an
abstract predicate `errP`, and Python `str.strip` is modelled by
`pystrip` (drop unicode whitespace from both ends).  State-changing
calls made by the scheduler (progress writes, state writes, log
appends) are recorded as an event trace.
-/

namespace Geister

/-- Default `OLLAMA_URL` (env var default in telos_executor.py line 29). -/
def OLLAMA_URL : String := "http://localhost:11434"

/-- `max_iterations` from telos_executor.py line 162. -/
def maxIterations : Nat := 8

/-- `MAX_LOG_ENTRIES` from telos_executor.py line 38. -/
def MAX_LOG_ENTRIES : Nat := 100

/-! ## Python `str.strip` model -/

/-- Whitespace test used by `strip`. -/
def wsp (c : Char) : Bool := c.isWhitespace

/-- Strip whitespace from both ends of a character list. -/
def stripChars (l : List Char) : List Char :=
  ((l.dropWhile wsp).reverse.dropWhile wsp).reverse

/-- Model of Python `str.strip()`. -/
def pystrip (s : String) : String := ⟨stripChars s.data⟩

/-- Model of Python `"\n".join(l)`. -/
def joinNL : List String → String
  | [] => ""
  | [a] => a
  | a :: b :: rest => a ++ "\n" ++ joinNL (b :: rest)

/-! ## JSON-ish values and the argument dictionaries of tool calls -/

/-- A small JSON scalar value type for LLM-supplied tool arguments. -/
inductive JVal where
  | str : String → JVal
  | num : Int → JVal
  | bool : Bool → JVal
  | null : JVal
deriving DecidableEq

/-- Python truthiness of a JSON scalar (`if llm_realm_id:`). -/
def JVal.truthy : JVal → Bool
  | .str s => s ≠ ""
  | .num n => n ≠ 0
  | .bool b => b
  | .null => false

/-- A Python dict, as a finite-support map given pointwise. -/
abbrev Dict := String → Option JVal

/-- The empty dict. -/
def Dict.empty : Dict := fun _ => none

/-- `d[k] = v` assignment. -/
def Dict.set (m : Dict) (k : String) (v : JVal) : Dict :=
  fun q => if q = k then some v else m q

/-- `del d[k]`. -/
def Dict.del (m : Dict) (k : String) : Dict :=
  fun q => if q = k then none else m q

/-- Lookup in an association list (the LLM-supplied `arguments` dict). -/
def alookup (args : List (String × JVal)) (k : String) : Option JVal :=
  (args.find? (fun p => p.1 == k)).map Prod.snd

/-! ## Tool signatures (realm_tools.py)

`execute_tool` filters arguments against `inspect.signature(func)`.
`TOOL_SIG` lists, for each entry of `TOOL_FUNCTIONS` (realm_tools.py
lines 1167-1199), the parameter names of the target Python function in
declaration order. -/

def TOOL_SIG : List (String × List String) := [
  ("list_realms", ["network", "realm_folder"]),
  ("search_realm", ["query", "network", "realm_folder"]),
  ("registry_get_credits", ["principal_id", "network", "realm_folder", "billing_url"]),
  ("registry_redeem_voucher", ["principal_id", "code", "billing_url", "network", "realm_folder"]),
  ("registry_deploy_realm", ["principal_id", "realm_name", "management_url", "network", "realm_folder"]),
  ("registry_deploy_status", ["deployment_id", "management_url", "wait", "network", "realm_folder"]),
  ("join_realm", ["profile", "network", "realm_folder", "realm_principal", "identity"]),
  ("set_profile_picture", ["profile_picture_url", "network", "realm_folder", "realm_principal", "identity"]),
  ("get_my_status", ["network", "realm_folder", "realm_principal", "identity"]),
  ("get_my_principal", ["network", "realm_folder", "realm_principal", "identity"]),
  ("realm_status", ["network", "realm_folder", "realm_principal", "identity"]),
  ("db_schema", ["network", "realm_folder"]),
  ("db_get", ["entity_type", "entity_id", "network", "realm_folder"]),
  ("find_objects", ["class_name", "params", "network", "realm_folder", "realm_principal", "identity"]),
  ("get_proposals", ["status", "network", "realm_folder", "identity"]),
  ("get_proposal", ["proposal_id", "network", "realm_folder", "identity"]),
  ("cast_vote", ["proposal_id", "vote", "voter_id", "network", "realm_folder", "identity"]),
  ("get_my_vote", ["proposal_id", "voter_id", "network", "realm_folder", "identity"]),
  ("submit_proposal", ["title", "description", "proposer_id", "code_url", "network", "realm_folder", "identity"]),
  ("get_balance", ["principal_id", "network", "realm_folder"]),
  ("get_transactions", ["principal_id", "network", "realm_folder"]),
  ("get_vault_status", ["network", "realm_folder"]),
  ("icw_check_balance", ["token", "principal", "network", "realm_folder"]),
  ("icw_transfer_tokens", ["recipient", "amount", "token", "memo", "subaccount", "network", "realm_folder"]),
  ("icw_get_address", ["network", "realm_folder"])]

/-- `inspect.signature(TOOL_FUNCTIONS[name]).parameters.keys()`;
`none` when `name not in TOOL_FUNCTIONS`. -/
def TOOL_PARAMS (name : String) : Option (List String) :=
  (TOOL_SIG.find? (fun p => p.1 == name)).map Prod.snd

/-- Outcome of `execute_tool`: either the early error return for an
unknown tool (the Python returns a JSON error string naming the tool),
or the invocation `func(**filtered_args)` of the named function with
the final keyword-argument dict. -/
inductive ToolDispatch where
  | unknownTool (toolName : String)
  | invoke (funcName : String) (args : Dict)

/-- `llm_realm_id = arguments.pop('realm_id', '')` and
`if llm_realm_id: realm_principal = llm_realm_id` (lines 1218-1221):
the realm_principal value actually placed in `filtered_args`. -/
def rpValue (arguments : List (String × JVal)) (realm_principal : String) : JVal :=
  match alookup arguments "realm_id" with
  | some v => if v.truthy then v else .str realm_principal
  | none => .str realm_principal

/-- The initial `filtered_args` dict of context defaults
(lines 1229-1234). -/
def ctxDefaults (network realm_folder : String) (rpv : JVal) (user_identity : String) : Dict :=
  (((Dict.empty.set "network" (.str network)).set "realm_folder"
      (.str realm_folder)).set "realm_principal" rpv).set "identity" (.str user_identity)

/-- The `voter_id` auto-fill from `user_principal` (lines 1237-1238);
`args'` is `arguments` after the `realm_id` pop. -/
def setVoter (valid_params : List String) (args' : List (String × JVal))
    (user_principal : String) (fa : Dict) : Dict :=
  if "voter_id" ∈ valid_params ∧ alookup args' "voter_id" = none ∧
      user_principal ≠ "" then fa.set "voter_id" (.str user_principal) else fa

/-- The `proposer_id` auto-fill from `user_principal` (lines 1241-1242). -/
def setProposer (valid_params : List String) (args' : List (String × JVal))
    (user_principal : String) (fa : Dict) : Dict :=
  if "proposer_id" ∈ valid_params ∧ alookup args' "proposer_id" = none ∧
      user_principal ≠ "" then fa.set "proposer_id" (.str user_principal) else fa

/-- Both auto-fills, in source order (lines 1237-1242). -/
def withAutoIds (valid_params : List String) (args' : List (String × JVal))
    (user_principal : String) (fa : Dict) : Dict :=
  setProposer valid_params args' user_principal
    (setVoter valid_params args' user_principal fa)

/-- `for key, value in arguments.items(): if key in valid_params: ...`
(lines 1245-1247). -/
def foldArgs (valid_params : List String) (args' : List (String × JVal)) (fa : Dict) : Dict :=
  args'.foldl (fun m p => if p.1 ∈ valid_params then m.set p.1 p.2 else m) fa

/-- `if "realm_principal" not in valid_params: del ...` (lines 1250-1251). -/
def dropRP (valid_params : List String) (fa : Dict) : Dict :=
  if "realm_principal" ∈ valid_params then fa else fa.del "realm_principal"

/-- `if "identity" not in valid_params: del ...` (lines 1252-1253). -/
def dropId (valid_params : List String) (fa : Dict) : Dict :=
  if "identity" ∈ valid_params then fa else fa.del "identity"

/-- Deletion of the `realm_principal` / `identity` context defaults when
the target function does not accept them (lines 1250-1253). -/
def dropInvalidCtx (valid_params : List String) (fa : Dict) : Dict :=
  dropId valid_params (dropRP valid_params fa)

/-- The final keyword-argument dict `filtered_args` handed to the tool
function (realm_tools.py lines 1217-1255). -/
def filteredArgs (valid_params : List String) (arguments : List (String × JVal))
    (network realm_folder realm_principal user_principal user_identity : String) : Dict :=
  let args' := arguments.filter (fun p => p.1 ≠ "realm_id")
  dropInvalidCtx valid_params
    (foldArgs valid_params args'
      (withAutoIds valid_params args' user_principal
        (ctxDefaults network realm_folder (rpValue arguments realm_principal) user_identity)))

/-- Embedding of `execute_tool` (realm_tools.py lines 1202-1255). -/
def execute_tool (tool_name : String) (arguments : List (String × JVal))
    (network realm_folder realm_principal user_principal user_identity : String) :
    ToolDispatch :=
  match TOOL_PARAMS tool_name with
  | none => .unknownTool tool_name
  | some valid_params =>
    .invoke tool_name (filteredArgs valid_params arguments network realm_folder
      realm_principal user_principal user_identity)

/-! ## Conversation engine data model -/

/-- Message roles in the conversation trace. -/
inductive Role where
  | system | user | assistant | tool
deriving DecidableEq

/-- A tool-call request carried by an assistant message. -/
structure ToolCallReq where
  name : String
  args : List (String × JVal)
deriving DecidableEq

/-- A message of the conversation trace. -/
structure Msg where
  role : Role
  content : String
  tool_calls : List ToolCallReq
deriving DecidableEq

def mkSystem (c : String) : Msg := ⟨Role.system, c, []⟩
def mkUser (c : String) : Msg := ⟨Role.user, c, []⟩
def mkAssistant (c : String) (tcs : List ToolCallReq) : Msg := ⟨Role.assistant, c, tcs⟩
def mkTool (c : String) : Msg := ⟨Role.tool, c, []⟩

/-- The extracted assistant message of a successful chat response
(`result.get('message', {})` with `content` and `tool_calls`). -/
structure AssistantMsg where
  content : String
  tool_calls : List ToolCallReq
deriving DecidableEq

/-- Observable outcome of one POST to the chat endpoint with tools
attached: a connection error, a timeout, or an HTTP response with a
status code and a body that either fails JSON parsing (`none`) or
yields an assistant message. -/
inductive ChatResponse where
  | connError
  | timeoutErr
  | response (status : Nat) (body : Option AssistantMsg)
deriving DecidableEq

/-- Observable outcome of one forced-summary POST (no tools attached).
Any exception (connection error, timeout, JSON decode error) is caught
by the surrounding `try` in the Python, so `exn` lumps them. -/
inductive SummaryResponse where
  | exn
  | response (status : Nat) (body : Option AssistantMsg)
deriving DecidableEq

/-- The dict returned by `execute_telos_step`: `success`, optional
`result`, optional `error`. -/
structure StepOutcome where
  success : Bool
  result : Option String
  error : Option String
deriving DecidableEq

/-- Error message for `requests.exceptions.ConnectionError` (line 179). -/
def connErrorMsg : String :=
  s!"Cannot reach Ollama at {OLLAMA_URL}. The LLM backend appears to be offline."

/-- Error message for `requests.exceptions.Timeout` (line 181). -/
def timeoutErrMsg : String :=
  s!"Ollama at {OLLAMA_URL} timed out. The LLM backend may be overloaded."

/-- Error message for a non-200 HTTP status (line 184). -/
def httpErrorMsg (status : Nat) : String :=
  s!"Cannot reach Ollama at {OLLAMA_URL} (HTTP {status}). The LLM backend appears to be offline or unavailable."

/-- Error message for a 200 response whose body is not valid JSON (line 189). -/
def invalidJsonMsg : String :=
  s!"Invalid response from Ollama at {OLLAMA_URL}. The LLM backend may be misconfigured."

/-- How the tool-calling `while` loop (lines 168-254) ends: an early
`return` of a failure dict, a `break` with `final_answer` set, or
exhaustion of `max_iterations` with `final_answer` still `None`. -/
inductive LoopExit where
  | fail (err : String) (res : Option String) (msgs : List Msg)
  | done (final : String) (msgs : List Msg)
  | exhausted (msgs : List Msg) (toolsCalled : List String) (accumulated : List String)
deriving DecidableEq

/-- The `for tool_call in tool_calls` dispatch block (lines 224-254):
each call appends its name to `tools_called` and its result string (the
`tools` oracle indexed by the number of dispatches made so far) as a
tool-role message. -/
def execCalls (tools : Nat → String) (calls : List ToolCallReq)
    (msgs : List Msg) (tc : List String) : List Msg × List String :=
  calls.foldl (fun st c => (st.1 ++ [mkTool (tools st.2.length)], st.2 ++ [c.name])) (msgs, tc)

/-- The tool-calling loop (lines 168-254).  `chat n` is the response to
the n-th chat POST (so `chat iteration` inside the body, since each
pass makes exactly one POST); `fuel` is `max_iterations - iteration`,
and the Python 1-based `iteration` value inside the body is
`iteration + 1` (the first-pass nudge guard `iteration == 1` is
`iteration = 0` here). -/
def chatLoop (chat : Nat → ChatResponse) (tools : Nat → String) (nudge : String) :
    Nat → Nat → List Msg → List String → List String → LoopExit
  | 0, _, msgs, tc, acc => .exhausted msgs tc acc
  | fuel + 1, iteration, msgs, tc, acc =>
    match chat iteration with
    | .connError => .fail connErrorMsg none msgs
    | .timeoutErr => .fail timeoutErrMsg none msgs
    | .response status body =>
      if status ≠ 200 then .fail (httpErrorMsg status) none msgs
      else
        match body with
        | none => .fail invalidJsonMsg none msgs
        | some am =>
          if am.tool_calls = [] ∧ iteration = 0 ∧ tc = [] then
            -- first-iteration nudge (lines 202-208): append corrective
            -- user message and continue
            chatLoop chat tools nudge fuel (iteration + 1)
              (msgs ++ [mkAssistant am.content am.tool_calls, mkUser nudge]) tc
              (if pystrip am.content ≠ "" then acc ++ [pystrip am.content] else acc)
          else if am.content ≠ "" ∧ am.tool_calls = [] ∧ tc ≠ [] then
            -- tools already called, now a text response: done (lines 211-213)
            .done am.content (msgs ++ [mkAssistant am.content am.tool_calls])
          else if am.tool_calls = [] then
            if tc = [] then
              -- still no tool calls after nudging (lines 216-219)
              .fail "LLM did not call any tools for this step" (some am.content)
                (msgs ++ [mkAssistant am.content am.tool_calls])
            else
              -- `final_answer = content or "Step completed."` (line 220)
              .done (if am.content = "" then "Step completed." else am.content)
                (msgs ++ [mkAssistant am.content am.tool_calls])
          else
            let st := execCalls tools am.tool_calls
              (msgs ++ [mkAssistant am.content am.tool_calls]) tc
            chatLoop chat tools nudge fuel (iteration + 1) st.1 st.2
              (if pystrip am.content ≠ "" then acc ++ [pystrip am.content] else acc)

/-- First forced-summary prompt (line 261). -/
def summaryPrompt0 : String :=
  "Summarise what you just did and what happened. List the tools you called, their results, and any errors. Do NOT call any more tools — respond with plain text only."

/-- Second forced-summary prompt (line 262). -/
def summaryPrompt1 : String :=
  "RESPOND WITH TEXT ONLY. No tool calls. Summarise the actions and results from above."

/-- One forced-summary attempt (lines 268-287): accepted iff the HTTP
status is 200, the body parses, and the stripped content is non-empty;
on acceptance the accepted text and the appended assistant message are
returned. -/
def trySummary : SummaryResponse → Option (String × Msg)
  | .exn => none
  | .response status body =>
    if status = 200 then
      match body with
      | none => none
      | some am =>
        if pystrip am.content ≠ "" then
          some (pystrip am.content, mkAssistant am.content am.tool_calls)
        else none
    else none

/-- The synthesized last-resort result string (line 295). -/
def synthFallback (n : Nat) : String :=
  s!"Step completed ({n} tool calls executed)."

/-- The `final_answer is None` recovery block (lines 258-295): at most
two forced-summary calls (oracle indices 0 and 1), then the
accumulated-narration or synthesized-string fallback.  Returns the
final answer and the message list. -/
def afterExhaustion (summary : Nat → SummaryResponse) (msgs : List Msg)
    (tc : List String) (acc : List String) : String × List Msg :=
  let m1 := msgs ++ [mkUser summaryPrompt0]
  match trySummary (summary 0) with
  | some (t, am) => (t, m1 ++ [am])
  | none =>
    let m2 := m1 ++ [mkUser summaryPrompt1]
    match trySummary (summary 1) with
    | some (t, am) => (t, m2 ++ [am])
    | none =>
      (if acc ≠ [] then joinNL acc else synthFallback tc.length, m2)

/-- `any tool-role message whose content parses as a JSON dict with a
truthy 'error' key` (lines 349-358); JSON parsing is abstracted by the
predicate `errP`. -/
def toolHadError (errP : String → Bool) (msgs : List Msg) : Bool :=
  msgs.any fun m => m.role == Role.tool && errP m.content

/-- The success determination (lines 345-363): fail with "Tool
execution returned an error" iff the final answer is empty or
whitespace and some tool-role message carries an error payload;
otherwise succeed with the final answer. -/
def finalCheck (errP : String → Bool) (final : String) (msgs : List Msg) : StepOutcome :=
  if pystrip final = "" then
    if toolHadError errP msgs then
      ⟨false, some "", some "Tool execution returned an error"⟩
    else ⟨true, some final, none⟩
  else ⟨true, some final, none⟩

/-- `realm_context` string (line 139). -/
def realmContext (realm_principal realm_name : String) : String :=
  if realm_principal ≠ "" then
    s!"\nYou are operating in the realm \"{realm_name}\" (canister ID: {realm_principal})."
  else ""

/-- The system prompt (lines 140-152). -/
def systemPrompt (display_name persona agent_principal realm_principal realm_name step_text : String) : String :=
  let realm_context := realmContext realm_principal realm_name
  s!"You are {display_name}, a {persona} AI agent in the Realms ecosystem.\nYour principal ID is: {agent_principal}{realm_context}\n\nYou have a mission (telos) to complete. Your current step is:\n\"{step_text}\"\n\nIMPORTANT RULES:\n- You MUST call the appropriate tool function to complete this step. DO NOT just describe what you would do.\n- Use your principal ID ({agent_principal}) when tools require a principal_id parameter.\n- After the tool returns a result, summarize what happened in 1-2 sentences.\n- If the tool returns an error, explain the error briefly.\n- NEVER respond with just text. Always call a tool first.\n- When interacting with a specific realm, you MUST pass the realm_id parameter (the canister ID from list_realms results) to every tool call. Without realm_id, your calls may go to the wrong realm. Always call list_realms first to get the correct canister IDs, then pass the chosen realm\x27s id as realm_id in subsequent calls."

/-- The initial user message (line 154). -/
def userMsg (agent_principal step_text : String) : String :=
  s!"Execute this step NOW by calling the appropriate tool function. Your principal is {agent_principal}. Step: {step_text}"

/-- The nudge message (lines 204-207). -/
def nudgeMsg (agent_principal step_text : String) : String :=
  s!"You MUST call a tool function now. Do not describe what to do - actually call the tool. Your principal_id is {agent_principal}. Call the tool for: {step_text}"

/-- The initial message list (lines 156-159). -/
def initMsgs (display_name persona agent_principal realm_principal realm_name step_text : String) : List Msg :=
  [mkSystem (systemPrompt display_name persona agent_principal realm_principal realm_name step_text),
   mkUser (userMsg agent_principal step_text)]

/-- Embedding of `execute_telos_step` (lines 113-369), with the LLM
chat endpoint, the forced-summary calls, tool dispatch results and the
tool-error JSON test abstracted as oracles. -/
def execute_telos_step (errP : String → Bool) (chat : Nat → ChatResponse)
    (summary : Nat → SummaryResponse) (tools : Nat → String)
    (display_name persona agent_principal realm_principal realm_name step_text : String) :
    StepOutcome :=
  match chatLoop chat tools (nudgeMsg agent_principal step_text) maxIterations 0
      (initMsgs display_name persona agent_principal realm_principal realm_name step_text)
      [] [] with
  | .fail err res _ => ⟨false, res, some err⟩
  | .done final msgs => finalCheck errP final msgs
  | .exhausted msgs tc acc =>
    let p := afterExhaustion summary msgs tc acc
    finalCheck errP p.1 p.2

/-! ## Scheduler (process_active_agents) and execution log -/

/-- `result.get('result') or result.get('error', '')` (lines 429, 454). -/
def logText (r : StepOutcome) : String :=
  match r.result with
  | some s => if s = "" then r.error.getD "" else s
  | none => r.error.getD ""

/-- State-changing calls made while processing one active agent,
recorded in order. -/
inductive SchedEvent where
  | execStep (idx : Nat) (text : String)
  | writeProgress (newStep : Nat) (recKey : Nat) (recStatus : String) (recResult : String)
  | setState (s : String)
  | addLog (agent : String) (step : Nat) (text : String) (result : String) (success : Bool)
deriving DecidableEq

/-- Embedding of the per-agent body of `process_active_agents`
(lines 399-456), given the resolved step list, the stored
`current_step` and the outcome `r` of `execute_telos_step` (consulted
only when a step is actually executed).  Returns the trace of
external calls. -/
def processAgentBody (agent_id : String) (steps : List String) (current_step : Nat)
    (r : StepOutcome) : List SchedEvent :=
  if steps = [] then []           -- "No steps found, skipping" (line 408)
  else if steps.length ≤ current_step then
    [.setState "completed"]       -- lines 415-418, no execution
  else
    let text := steps.getD current_step ""
    let recStatus := if r.success then "completed" else "failed"
    let res := logText r
    let logEv := SchedEvent.addLog agent_id current_step text res r.success
    if r.success then
      [SchedEvent.execStep current_step text,
       SchedEvent.writeProgress (current_step + 1) current_step recStatus res] ++
      (if steps.length ≤ current_step + 1 then [SchedEvent.setState "completed"] else []) ++
      [logEv]
    else
      [SchedEvent.execStep current_step text,
       SchedEvent.writeProgress current_step current_step recStatus res, logEv]

/-- An execution log entry (lines 57-64). -/
structure LogEntry where
  timestamp : String
  agent_id : String
  step : Nat
  step_text : String
  result : String
  success : Bool
deriving DecidableEq

/-- Embedding of `add_execution_log` (lines 54-68); `timestamp` stands
for `datetime.now().isoformat()`. -/
def add_execution_log (timestamp agent_id : String) (step : Nat)
    (step_text result : String) (success : Bool) (log : List LogEntry) : List LogEntry :=
  let entry : LogEntry := ⟨timestamp, agent_id, step, step_text, result.take 500, success⟩
  let log' := entry :: log
  if log'.length > MAX_LOG_ENTRIES then log'.take MAX_LOG_ENTRIES else log'

/-- Embedding of `get_execution_log` (lines 71-73). -/
def get_execution_log (limit : Nat) (log : List LogEntry) : List LogEntry :=
  log.take limit

/-- Replay of a sequence of `add_execution_log` calls from the initial
empty log (`_execution_log = []`, line 37). -/
def runLog (ops : List (String × String × Nat × String × String × Bool)) : List LogEntry :=
  ops.foldl
    (fun l o => add_execution_log o.1 o.2.1 o.2.2.1 o.2.2.2.1 o.2.2.2.2.1 o.2.2.2.2.2 l) []

/-- Number of `execute_telos_step` invocations recorded in a scheduler trace. -/
def countExecEv (tr : List SchedEvent) : Nat :=
  tr.countP fun e => match e with | .execStep _ _ => true | _ => false

/-- Number of `add_execution_log` calls recorded in a scheduler trace. -/
def countLogEv (tr : List SchedEvent) : Nat :=
  tr.countP fun e => match e with | .addLog _ _ _ _ _ => true | _ => false

/-- Invariant of `accumulated_content`: every entry contains a
non-whitespace character (entries are non-empty stripped strings). -/
def accInv (acc : List String) : Prop := ∀ x ∈ acc, ∃ c ∈ x.data, wsp c = false

/-! ### Concrete oracles used by witnesses and counterexamples -/

/-- A model that calls one tool with empty narration on every iteration. -/
def chatAlwaysTool : Nat → ChatResponse :=
  fun _ => .response 200 (some ⟨"", [⟨"cast_vote", []⟩]⟩)

/-- Tool dispatch that always returns an error payload. -/
def toolsErr : Nat → String := fun _ => "\x7b\"error\": \"x\"\x7d"

/-- Error-payload test matching exactly the `toolsErr` result string. -/
def errPJson : String → Bool := fun s => s == "\x7b\"error\": \"x\"\x7d"

/-- Forced-summary calls that return HTTP 200 with empty content. -/
def summaryEmpty : Nat → SummaryResponse := fun _ => .response 200 (some ⟨"", []⟩)

/-- A model that chats but never calls a tool. -/
def chatNoTools : Nat → ChatResponse := fun _ => .response 200 (some ⟨"hello", []⟩)

/-- A model that makes one tool call, then an empty no-tool-call response. -/
def chatToolThenEmpty : Nat → ChatResponse := fun n =>
  if n = 0 then .response 200 (some ⟨"", [⟨"join_realm", []⟩]⟩)
  else .response 200 (some ⟨"", []⟩)

/-- A model that makes one tool call, then a whitespace-only no-tool-call
response. -/
def chatToolThenBlank : Nat → ChatResponse := fun n =>
  if n = 0 then .response 200 (some ⟨"", [⟨"join_realm", []⟩]⟩)
  else .response 200 (some ⟨" ", []⟩)

/-- A model that makes one tool call, then recovers with final text. -/
def chatToolThenText : Nat → ChatResponse := fun n =>
  if n = 0 then .response 200 (some ⟨"", [⟨"cast_vote", []⟩]⟩)
  else .response 200 (some ⟨"I already voted yes earlier.", []⟩)

/-! ## Helper lemmas about `pystrip` and `joinNL` -/

theorem wsp_head_dropWhile {α : Type} (p : α → Bool) :
    ∀ (l : List α) (x : α) (xs : List α), l.dropWhile p = x :: xs → p x = false := by
  intro l
  induction l with
  | nil => intro x xs h; simp [List.dropWhile] at h
  | cons a t ih =>
    intro x xs h
    rw [List.dropWhile_cons] at h
    by_cases hp : p a
    · rw [if_pos hp] at h; exact ih x xs h
    · rw [if_neg hp] at h
      cases h
      simpa using hp

theorem stripChars_eq_nil_iff (l : List Char) :
    stripChars l = [] ↔ ∀ c ∈ l, wsp c = true := by
  unfold stripChars
  rw [List.reverse_eq_nil_iff, List.dropWhile_eq_nil_iff]
  constructor
  · intro h c hc
    have hsplit : c ∈ l.takeWhile wsp ++ l.dropWhile wsp := by
      rw [List.takeWhile_append_dropWhile]; exact hc
    rcases List.mem_append.mp hsplit with h1 | h1
    · exact List.mem_takeWhile_imp h1
    · exact h c (List.mem_reverse.mpr h1)
  · intro h c hc
    exact h c ((List.dropWhile_suffix wsp).subset (List.mem_reverse.mp hc))

theorem stripChars_prefix_dropWhile (l : List Char) :
    ∃ t, stripChars l ++ t = l.dropWhile wsp := by
  have h2 : (l.dropWhile wsp).reverse.dropWhile wsp <:+ (l.dropWhile wsp).reverse :=
    List.dropWhile_suffix wsp
  have h3 := List.reverse_prefix.mpr h2
  rw [List.reverse_reverse] at h3
  exact h3

theorem stripChars_ne_nil_mem (l : List Char) (h : stripChars l ≠ []) :
    ∃ c ∈ stripChars l, wsp c = false := by
  rcases stripChars_prefix_dropWhile l with ⟨t, ht⟩
  rcases hs : stripChars l with _ | ⟨x, xs⟩
  · exact absurd hs h
  · rw [hs] at ht
    have hx : wsp x = false := by
      apply wsp_head_dropWhile wsp l x (xs ++ t)
      rw [← ht]; rfl
    exact ⟨x, by simp [hs], hx⟩

theorem pystrip_data (s : String) : (pystrip s).data = stripChars s.data := rfl

theorem pystrip_eq_empty_iff (s : String) :
    pystrip s = "" ↔ ∀ c ∈ s.data, wsp c = true := by
  constructor
  · intro h
    have hd : stripChars s.data = [] := by
      have := congrArg String.data h
      simpa [pystrip_data] using this
    exact (stripChars_eq_nil_iff s.data).mp hd
  · intro h
    apply String.ext
    rw [pystrip_data, (stripChars_eq_nil_iff s.data).mpr h]

theorem pystrip_ne_empty_of_mem (s : String) (c : Char) (hc : c ∈ s.data)
    (hw : wsp c = false) : pystrip s ≠ "" := by
  intro h
  have := (pystrip_eq_empty_iff s).mp h c hc
  rw [hw] at this
  exact Bool.false_ne_true this

theorem pystrip_ne_empty_mem (s : String) (h : pystrip s ≠ "") :
    ∃ c ∈ (pystrip s).data, wsp c = false := by
  have hd : stripChars s.data ≠ [] := by
    intro hnil
    exact h (String.ext (by rw [pystrip_data, hnil]))
  rcases stripChars_ne_nil_mem s.data hd with ⟨c, hc, hw⟩
  exact ⟨c, by rw [pystrip_data]; exact hc, hw⟩

theorem mem_data_joinNL : ∀ (l : List String), ∀ x ∈ l, ∀ c ∈ x.data, c ∈ (joinNL l).data := by
  intro l
  induction l with
  | nil => simp
  | cons a rest ih =>
    intro x hx c hc
    cases rest with
    | nil =>
      rcases List.mem_singleton.mp hx with rfl
      simpa [joinNL] using hc
    | cons b r =>
      rw [joinNL, String.data_append, String.data_append]
      rcases List.mem_cons.mp hx with rfl | hx'
      · exact List.mem_append.mpr (Or.inl (List.mem_append.mpr (Or.inl hc)))
      · exact List.mem_append.mpr (Or.inr (ih x hx' c hc))

theorem pystrip_joinNL_ne_empty (l : List String) (hl : l ≠ [])
    (h : ∀ x ∈ l, ∃ c ∈ x.data, wsp c = false) : pystrip (joinNL l) ≠ "" := by
  rcases List.exists_mem_of_ne_nil l hl with ⟨x, hx⟩
  rcases h x hx with ⟨c, hc, hw⟩
  exact pystrip_ne_empty_of_mem _ c (mem_data_joinNL l x hx c hc) hw

/-! ## Helper lemmas about dicts and the argument merge of `execute_tool` -/

theorem Dict.set_self (m : Dict) (k : String) (v : JVal) : (m.set k v) k = some v :=
  if_pos rfl

theorem Dict.set_other (m : Dict) (k q : String) (v : JVal) (h : q ≠ k) :
    (m.set k v) q = m q := if_neg h

theorem Dict.del_self (m : Dict) (k : String) : (m.del k) k = none :=
  if_pos rfl

theorem Dict.del_other (m : Dict) (k q : String) (h : q ≠ k) : (m.del k) q = m q :=
  if_neg h

theorem alookup_eq_none_iff (args : List (String × JVal)) (k : String) :
    alookup args k = none ↔ k ∉ args.map Prod.fst := by
  unfold alookup
  rw [Option.map_eq_none', List.find?_eq_none]
  constructor
  · intro h hk
    rcases List.mem_map.mp hk with ⟨p, hp, hpk⟩
    have := h p hp
    simp [hpk] at this
  · intro h p hp he
    exact h (List.mem_map.mpr ⟨p, hp, by simpa using he⟩)

theorem alookup_filter_none (args : List (String × JVal)) (q : String × JVal → Bool)
    (k : String) (h : alookup args k = none) : alookup (args.filter q) k = none := by
  rw [alookup_eq_none_iff] at h ⊢
  intro hk
  rcases List.mem_map.mp hk with ⟨p, hp, hpk⟩
  exact h (List.mem_map.mpr ⟨p, (List.mem_filter.mp hp).1, hpk⟩)

theorem foldArgs_cons (ps : List String) (p : String × JVal) (rest : List (String × JVal))
    (m : Dict) :
    foldArgs ps (p :: rest) m = foldArgs ps rest (if p.1 ∈ ps then m.set p.1 p.2 else m) := rfl

theorem foldArgs_alookup_none (ps : List String) :
    ∀ (args : List (String × JVal)) (m : Dict) (k : String),
      alookup args k = none → foldArgs ps args m k = m k := by
  intro args
  induction args with
  | nil => intro m k _; rfl
  | cons p rest ih =>
    intro m k h
    rw [alookup_eq_none_iff] at h
    simp only [List.map_cons, List.mem_cons, not_or] at h
    obtain ⟨hk1, hk2⟩ := h
    rw [foldArgs_cons, ih _ k ((alookup_eq_none_iff rest k).mpr hk2)]
    by_cases hp : p.1 ∈ ps
    · rw [if_pos hp, Dict.set_other _ _ _ _ hk1]
    · rw [if_neg hp]

theorem foldArgs_mem (ps : List String) :
    ∀ (args : List (String × JVal)) (m : Dict) (k : String) (v : JVal),
      (args.map Prod.fst).Nodup → (k, v) ∈ args → k ∈ ps →
      foldArgs ps args m k = some v := by
  intro args
  induction args with
  | nil => intro m k v _ h _; cases h
  | cons p rest ih =>
    intro m k v hnd hmem hk
    have hnd' : p.1 ∉ rest.map Prod.fst ∧ (rest.map Prod.fst).Nodup := by
      simpa [List.nodup_cons] using hnd
    rw [foldArgs_cons]
    rcases List.mem_cons.mp hmem with rfl | hmem'
    · have hrest : alookup rest k = none :=
        (alookup_eq_none_iff rest k).mpr hnd'.1
      rw [foldArgs_alookup_none ps rest _ k hrest, if_pos hk]
      exact Dict.set_self m k v
    · have hne : p.1 ≠ k := by
        intro he
        exact hnd'.1 (he ▸ List.mem_map.mpr ⟨(k, v), hmem', rfl⟩)
      have hke : k ≠ p.1 := fun h => hne h.symm
      by_cases hp : p.1 ∈ ps
      · rw [if_pos hp]; exact ih _ k v hnd'.2 hmem' hk
      · rw [if_neg hp]; exact ih _ k v hnd'.2 hmem' hk

theorem foldArgs_isSome (ps : List String) :
    ∀ (args : List (String × JVal)) (m : Dict) (k : String),
      (foldArgs ps args m k).isSome = true → (m k).isSome = true ∨ k ∈ ps := by
  intro args
  induction args with
  | nil => intro m k h; exact Or.inl h
  | cons p rest ih =>
    intro m k h
    rw [foldArgs_cons] at h
    rcases ih _ k h with h1 | h1
    · by_cases hp : p.1 ∈ ps
      · rw [if_pos hp] at h1
        by_cases he : k = p.1
        · subst he; exact Or.inr hp
        · rw [Dict.set_other _ _ _ _ he] at h1; exact Or.inl h1
      · rw [if_neg hp] at h1; exact Or.inl h1
    · exact Or.inr h1

theorem ctxDefaults_network (nw rf : String) (rpv : JVal) (ui : String) :
    ctxDefaults nw rf rpv ui "network" = some (.str nw) := by
  unfold ctxDefaults
  rw [Dict.set_other _ _ _ _ (by decide), Dict.set_other _ _ _ _ (by decide),
    Dict.set_other _ _ _ _ (by decide)]
  exact Dict.set_self _ _ _

theorem ctxDefaults_realm_folder (nw rf : String) (rpv : JVal) (ui : String) :
    ctxDefaults nw rf rpv ui "realm_folder" = some (.str rf) := by
  unfold ctxDefaults
  rw [Dict.set_other _ _ _ _ (by decide), Dict.set_other _ _ _ _ (by decide)]
  exact Dict.set_self _ _ _

theorem ctxDefaults_realm_principal (nw rf : String) (rpv : JVal) (ui : String) :
    ctxDefaults nw rf rpv ui "realm_principal" = some rpv := by
  unfold ctxDefaults
  rw [Dict.set_other _ _ _ _ (by decide)]
  exact Dict.set_self _ _ _

theorem ctxDefaults_identity (nw rf : String) (rpv : JVal) (ui : String) :
    ctxDefaults nw rf rpv ui "identity" = some (.str ui) :=
  Dict.set_self _ _ _

theorem ctxDefaults_cases (nw rf : String) (rpv : JVal) (ui : String) (k : String)
    (h : (ctxDefaults nw rf rpv ui k).isSome = true) :
    k = "network" ∨ k = "realm_folder" ∨ k = "realm_principal" ∨ k = "identity" := by
  by_contra hc
  push_neg at hc
  obtain ⟨h1, h2, h3, h4⟩ := hc
  unfold ctxDefaults at h
  rw [Dict.set_other _ _ _ _ h4, Dict.set_other _ _ _ _ h3,
    Dict.set_other _ _ _ _ h2, Dict.set_other _ _ _ _ h1] at h
  simp [Dict.empty] at h

theorem setVoter_other (ps : List String) (args' : List (String × JVal)) (up : String)
    (fa : Dict) (k : String) (h : k ≠ "voter_id") :
    setVoter ps args' up fa k = fa k := by
  unfold setVoter
  split
  · exact Dict.set_other _ _ _ _ h
  · rfl

theorem setProposer_other (ps : List String) (args' : List (String × JVal)) (up : String)
    (fa : Dict) (k : String) (h : k ≠ "proposer_id") :
    setProposer ps args' up fa k = fa k := by
  unfold setProposer
  split
  · exact Dict.set_other _ _ _ _ h
  · rfl

theorem withAutoIds_other (ps : List String) (args' : List (String × JVal)) (up : String)
    (fa : Dict) (k : String) (h1 : k ≠ "voter_id") (h2 : k ≠ "proposer_id") :
    withAutoIds ps args' up fa k = fa k := by
  unfold withAutoIds
  rw [setProposer_other _ _ _ _ _ h2, setVoter_other _ _ _ _ _ h1]

theorem withAutoIds_isSome (ps : List String) (args' : List (String × JVal)) (up : String)
    (fa : Dict) (k : String) (h : (withAutoIds ps args' up fa k).isSome = true) :
    (fa k).isSome = true ∨ ("voter_id" ∈ ps ∧ k = "voter_id") ∨
      ("proposer_id" ∈ ps ∧ k = "proposer_id") := by
  by_cases h1 : k = "voter_id"
  · subst h1
    unfold withAutoIds at h
    rw [setProposer_other _ _ _ _ _ (by decide)] at h
    unfold setVoter at h
    by_cases hcond : "voter_id" ∈ ps ∧ alookup args' "voter_id" = none ∧ up ≠ ""
    · exact Or.inr (Or.inl ⟨hcond.1, rfl⟩)
    · rw [if_neg hcond] at h
      exact Or.inl h
  by_cases h2 : k = "proposer_id"
  · subst h2
    unfold withAutoIds setProposer at h
    by_cases hcond : "proposer_id" ∈ ps ∧ alookup args' "proposer_id" = none ∧ up ≠ ""
    · exact Or.inr (Or.inr ⟨hcond.1, rfl⟩)
    · rw [if_neg hcond, setVoter_other _ _ _ _ _ (by decide)] at h
      exact Or.inl h
  rw [withAutoIds_other _ _ _ _ _ h1 h2] at h
  exact Or.inl h

theorem dropInvalidCtx_of_mem (ps : List String) (fa : Dict) (k : String) (h : k ∈ ps) :
    dropInvalidCtx ps fa k = fa k := by
  unfold dropInvalidCtx dropId dropRP
  by_cases h1 : k = "identity"
  · subst h1
    rw [if_pos h]
    by_cases h2 : "realm_principal" ∈ ps
    · rw [if_pos h2]
    · rw [if_neg h2, Dict.del_other _ _ _ (by decide)]
  · have e1 : ∀ m : Dict, (if "identity" ∈ ps then m else m.del "identity") k = m k := by
      intro m
      split
      · rfl
      · exact Dict.del_other _ _ _ h1
    rw [e1]
    by_cases h2 : k = "realm_principal"
    · subst h2; rw [if_pos h]
    · split
      · rfl
      · exact Dict.del_other _ _ _ h2

theorem dropInvalidCtx_other (ps : List String) (fa : Dict) (k : String)
    (h1 : k ≠ "realm_principal") (h2 : k ≠ "identity") :
    dropInvalidCtx ps fa k = fa k := by
  unfold dropInvalidCtx dropId dropRP
  have e1 : ∀ m : Dict, (if "identity" ∈ ps then m else m.del "identity") k = m k := by
    intro m
    split
    · rfl
    · exact Dict.del_other _ _ _ h2
  rw [e1]
  split
  · rfl
  · exact Dict.del_other _ _ _ h1

theorem dropInvalidCtx_isSome (ps : List String) (fa : Dict) (k : String)
    (h : (dropInvalidCtx ps fa k).isSome = true) :
    (fa k).isSome = true ∧ (k = "realm_principal" → "realm_principal" ∈ ps) ∧
      (k = "identity" → "identity" ∈ ps) := by
  unfold dropInvalidCtx dropId dropRP at h
  by_cases h2 : "identity" ∈ ps <;> by_cases h1 : "realm_principal" ∈ ps <;>
    simp only [if_pos, if_neg, h1, h2, if_true, if_false] at h
  · exact ⟨h, fun _ => h1, fun _ => h2⟩
  · by_cases hk : k = "realm_principal"
    · subst hk; rw [Dict.del_self] at h; simp at h
    · rw [Dict.del_other _ _ _ hk] at h
      exact ⟨h, fun he => absurd he hk, fun _ => h2⟩
  · by_cases hk : k = "identity"
    · subst hk; rw [Dict.del_self] at h; simp at h
    · rw [Dict.del_other _ _ _ hk] at h
      exact ⟨h, fun _ => h1, fun he => absurd he hk⟩
  · by_cases hk : k = "identity"
    · subst hk; rw [Dict.del_self] at h; simp at h
    · rw [Dict.del_other _ _ _ hk] at h
      by_cases hk1 : k = "realm_principal"
      · subst hk1; rw [Dict.del_self] at h; simp at h
      · rw [Dict.del_other _ _ _ hk1] at h
        exact ⟨h, fun he => absurd he hk1, fun he => absurd he hk⟩

theorem TOOL_SIG_has_ctx : ∀ e ∈ TOOL_SIG, "network" ∈ e.2 ∧ "realm_folder" ∈ e.2 := by
  decide

theorem TOOL_PARAMS_ctx (t : String) (ps : List String) (h : TOOL_PARAMS t = some ps) :
    "network" ∈ ps ∧ "realm_folder" ∈ ps := by
  unfold TOOL_PARAMS at h
  rcases hf : TOOL_SIG.find? (fun p => p.1 == t) with _ | e
  · rw [hf] at h; cases h
  · rw [hf] at h
    simp only [Option.map_some', Option.some.injEq] at h
    exact h ▸ TOOL_SIG_has_ctx e (List.mem_of_find?_eq_some hf)

theorem filteredArgs_eq (ps : List String) (arguments : List (String × JVal))
    (nw rf rp up ui : String) (k : String) :
    filteredArgs ps arguments nw rf rp up ui k
      = dropInvalidCtx ps (foldArgs ps (arguments.filter (fun p => p.1 ≠ "realm_id"))
          (withAutoIds ps (arguments.filter (fun p => p.1 ≠ "realm_id")) up
            (ctxDefaults nw rf (rpValue arguments rp) ui))) k := rfl

/-- Claim C8: for a known tool, the keyword arguments handed to the tool
function are the call-context defaults (`network`, `realm_folder`,
`realm_principal` — possibly replaced by a truthy LLM `realm_id` —,
`identity`, and the auto-filled `voter_id`/`proposer_id`) merged with
the LLM-supplied arguments, LLM values winning on key collision, and
every LLM-supplied key that is not a parameter of the target function is
dropped before the function is invoked. -/
theorem C8_execute_tool_merge (tool_name : String) (arguments : List (String × JVal))
    (network realm_folder realm_principal user_principal user_identity : String)
    (ps : List String) (fa : Dict)
    (hps : TOOL_PARAMS tool_name = some ps)
    (hnd : (arguments.map Prod.fst).Nodup)
    (hfa : fa = filteredArgs ps arguments network realm_folder realm_principal
      user_principal user_identity) :
    execute_tool tool_name arguments network realm_folder realm_principal user_principal
        user_identity = .invoke tool_name fa ∧
    (∀ k, (fa k).isSome = true → k ∈ ps) ∧
    (∀ k v, (k, v) ∈ arguments → k ≠ "realm_id" → k ∈ ps → fa k = some v) ∧
    (alookup arguments "network" = none → fa "network" = some (.str network)) ∧
    (alookup arguments "realm_folder" = none →
      fa "realm_folder" = some (.str realm_folder)) ∧
    ("realm_principal" ∈ ps → alookup arguments "realm_principal" = none →
      fa "realm_principal" = some (rpValue arguments realm_principal)) ∧
    ("identity" ∈ ps → alookup arguments "identity" = none →
      fa "identity" = some (.str user_identity)) ∧
    ("voter_id" ∈ ps → alookup arguments "voter_id" = none → user_principal ≠ "" →
      fa "voter_id" = some (.str user_principal)) ∧
    ("proposer_id" ∈ ps → alookup arguments "proposer_id" = none → user_principal ≠ "" →
      fa "proposer_id" = some (.str user_principal)) := by
  subst hfa
  have hctx := TOOL_PARAMS_ctx tool_name ps hps
  have hnd' : ((arguments.filter (fun p => p.1 ≠ "realm_id")).map Prod.fst).Nodup :=
    List.Nodup.sublist (List.Sublist.map Prod.fst (List.filter_sublist arguments)) hnd
  refine ⟨?_, ?_, ?_, ?_, ?_, ?_, ?_, ?_, ?_⟩
  · simp only [execute_tool, hps]
  · intro k hk
    rw [filteredArgs_eq] at hk
    obtain ⟨hk1, hrp, hid⟩ := dropInvalidCtx_isSome _ _ _ hk
    rcases foldArgs_isSome _ _ _ _ hk1 with h2 | h2
    · rcases withAutoIds_isSome _ _ _ _ _ h2 with h3 | h3 | h3
      · rcases ctxDefaults_cases _ _ _ _ _ h3 with rfl | rfl | rfl | rfl
        · exact hctx.1
        · exact hctx.2
        · exact hrp rfl
        · exact hid rfl
      · exact h3.2 ▸ h3.1
      · exact h3.2 ▸ h3.1
    · exact h2
  · intro k v hmem hkrid hkps
    rw [filteredArgs_eq, dropInvalidCtx_of_mem _ _ _ hkps]
    refine foldArgs_mem _ _ _ _ _ hnd' ?_ hkps
    exact List.mem_filter.mpr ⟨hmem, by simp [hkrid]⟩
  · intro h
    rw [filteredArgs_eq, dropInvalidCtx_other _ _ _ (by decide) (by decide),
      foldArgs_alookup_none _ _ _ _ (alookup_filter_none _ _ _ h),
      withAutoIds_other _ _ _ _ _ (by decide) (by decide)]
    exact ctxDefaults_network _ _ _ _
  · intro h
    rw [filteredArgs_eq, dropInvalidCtx_other _ _ _ (by decide) (by decide),
      foldArgs_alookup_none _ _ _ _ (alookup_filter_none _ _ _ h),
      withAutoIds_other _ _ _ _ _ (by decide) (by decide)]
    exact ctxDefaults_realm_folder _ _ _ _
  · intro hmem h
    rw [filteredArgs_eq, dropInvalidCtx_of_mem _ _ _ hmem,
      foldArgs_alookup_none _ _ _ _ (alookup_filter_none _ _ _ h),
      withAutoIds_other _ _ _ _ _ (by decide) (by decide)]
    exact ctxDefaults_realm_principal _ _ _ _
  · intro hmem h
    rw [filteredArgs_eq, dropInvalidCtx_of_mem _ _ _ hmem,
      foldArgs_alookup_none _ _ _ _ (alookup_filter_none _ _ _ h),
      withAutoIds_other _ _ _ _ _ (by decide) (by decide)]
    exact ctxDefaults_identity _ _ _ _
  · intro hmem h hup
    rw [filteredArgs_eq, dropInvalidCtx_other _ _ _ (by decide) (by decide),
      foldArgs_alookup_none _ _ _ _ (alookup_filter_none _ _ _ h)]
    unfold withAutoIds
    rw [setProposer_other _ _ _ _ _ (by decide)]
    unfold setVoter
    rw [if_pos ⟨hmem, alookup_filter_none _ _ _ h, hup⟩]
    exact Dict.set_self _ _ _
  · intro hmem h hup
    rw [filteredArgs_eq, dropInvalidCtx_other _ _ _ (by decide) (by decide),
      foldArgs_alookup_none _ _ _ _ (alookup_filter_none _ _ _ h)]
    unfold withAutoIds setProposer
    rw [if_pos ⟨hmem, alookup_filter_none _ _ _ h, hup⟩]
    exact Dict.set_self _ _ _

/-- Witness for C8 at a concrete dispatch: `cast_vote` with an
LLM-supplied `proposal_id` and an unknown key `bogus`. -/
theorem C8_execute_tool_merge_witness :
    execute_tool "cast_vote" [("proposal_id", JVal.str "P1"), ("bogus", JVal.str "z")]
        "staging" "." "ctx" "pr9" "ag7"
      = .invoke "cast_vote"
          (filteredArgs ["proposal_id", "vote", "voter_id", "network", "realm_folder",
            "identity"] [("proposal_id", JVal.str "P1"), ("bogus", JVal.str "z")]
            "staging" "." "ctx" "pr9" "ag7") ∧
    filteredArgs ["proposal_id", "vote", "voter_id", "network", "realm_folder", "identity"]
        [("proposal_id", JVal.str "P1"), ("bogus", JVal.str "z")]
        "staging" "." "ctx" "pr9" "ag7" "proposal_id" = some (JVal.str "P1") ∧
    filteredArgs ["proposal_id", "vote", "voter_id", "network", "realm_folder", "identity"]
        [("proposal_id", JVal.str "P1"), ("bogus", JVal.str "z")]
        "staging" "." "ctx" "pr9" "ag7" "voter_id" = some (JVal.str "pr9") := by
  have h := C8_execute_tool_merge "cast_vote"
    [("proposal_id", JVal.str "P1"), ("bogus", JVal.str "z")]
    "staging" "." "ctx" "pr9" "ag7"
    ["proposal_id", "vote", "voter_id", "network", "realm_folder", "identity"]
    (filteredArgs ["proposal_id", "vote", "voter_id", "network", "realm_folder", "identity"]
      [("proposal_id", JVal.str "P1"), ("bogus", JVal.str "z")]
      "staging" "." "ctx" "pr9" "ag7")
    (by decide) (by decide) rfl
  refine ⟨h.1, ?_, ?_⟩
  · exact h.2.2.1 "proposal_id" (JVal.str "P1") (by decide) (by decide) (by decide)
  · exact h.2.2.2.2.2.2.2.1 (by decide) (by decide) (by decide)

/-! ## Scheduler claims -/

/-- Claim C1: for every agent processed in one cycle, `current_step`
never decreases: a successful step stores `current_step + 1`, a failed
step writes `current_step` back unchanged, and any stored index exceeds
`current_step` only for a step recorded as success. -/
theorem C1_step_monotonic (agent_id : String) (steps : List String) (current_step : Nat)
    (r : StepOutcome) :
    (steps ≠ [] → current_step < steps.length → r.success = true →
      SchedEvent.writeProgress (current_step + 1) current_step "completed" (logText r)
        ∈ processAgentBody agent_id steps current_step r) ∧
    (steps ≠ [] → current_step < steps.length → r.success = false →
      SchedEvent.writeProgress current_step current_step "failed" (logText r)
        ∈ processAgentBody agent_id steps current_step r) ∧
    (∀ n k st res,
      SchedEvent.writeProgress n k st res ∈ processAgentBody agent_id steps current_step r →
      current_step ≤ n ∧ (current_step < n → r.success = true ∧ n = current_step + 1) ∧
        (r.success = false → n = current_step)) := by
  refine ⟨?_, ?_, ?_⟩
  · intro h0 h1 hs
    have h1' := not_le.mpr h1
    simp [processAgentBody, h0, h1', hs]
  · intro h0 h1 hs
    have h1' := not_le.mpr h1
    simp [processAgentBody, h0, h1', hs]
  · intro n k st res hmem
    by_cases h0 : steps = []
    · simp [processAgentBody, h0] at hmem
    · by_cases h1 : steps.length ≤ current_step
      · simp [processAgentBody, h0, h1] at hmem
      · by_cases hs : r.success = true
        · simp [processAgentBody, h0, h1, hs] at hmem
          obtain ⟨rfl, rfl, rfl, rfl⟩ := hmem
          exact ⟨Nat.le_succ _, fun _ => ⟨hs, rfl⟩,
            fun hf => absurd (hs.symm.trans hf) (by decide)⟩
        · have hs' : r.success = false := by
            cases hr : r.success
            · rfl
            · exact absurd hr hs
          simp [processAgentBody, h0, h1, hs'] at hmem
          obtain ⟨rfl, rfl, rfl, rfl⟩ := hmem
          exact ⟨le_refl _, fun hlt => absurd hlt (lt_irrefl _), fun _ => rfl⟩

/-- Witness for C1: a successful step at index 0 of a one-step telos
stores index 1. -/
theorem C1_step_monotonic_witness :
    SchedEvent.writeProgress 1 0 "completed" (logText ⟨true, some "ok", none⟩)
      ∈ processAgentBody "a1" ["a"] 0 ⟨true, some "ok", none⟩ :=
  (C1_step_monotonic "a1" ["a"] 0 ⟨true, some "ok", none⟩).1 (by decide) (by decide) rfl

/-- Counterexample to C2 as stated: with an empty resolved step list,
`current_step >= len(steps)` holds at poll time, yet the scheduler skips
the agent (line 408) without setting the state to completed. -/
theorem C2_counterexample :
    ([] : List String).length ≤ 0 ∧
    processAgentBody "a1" [] 0 ⟨true, some "x", none⟩ = [] ∧
    SchedEvent.setState "completed" ∉ processAgentBody "a1" [] 0 ⟨true, some "x", none⟩ := by
  refine ⟨le_refl 0, rfl, ?_⟩
  intro h
  simp [processAgentBody] at h

/-- Claim C2 (amended: the poll-time completion transition additionally
requires a non-empty resolved step list; an empty step list is skipped
with no state change): a success at the last step writes progress with
the incremented index and then sets the state to completed; and when
`current_step >= len(steps)` already holds at poll time (steps
non-empty) the scheduler sets completed and skips with no execution and
no progress write. -/
theorem C2_completion_transition (agent_id : String) (steps : List String)
    (current_step : Nat) (r : StepOutcome) (hne : steps ≠ []) :
    (current_step < steps.length → r.success = true → current_step + 1 = steps.length →
      processAgentBody agent_id steps current_step r =
        [SchedEvent.execStep current_step (steps.getD current_step ""),
         SchedEvent.writeProgress (current_step + 1) current_step "completed" (logText r),
         SchedEvent.setState "completed",
         SchedEvent.addLog agent_id current_step (steps.getD current_step "")
           (logText r) r.success]) ∧
    (steps.length ≤ current_step →
      processAgentBody agent_id steps current_step r = [SchedEvent.setState "completed"]) := by
  constructor
  · intro h1 hs hlast
    simp [processAgentBody, hne, not_le.mpr h1, hs, hlast.ge]
  · intro h1
    simp [processAgentBody, hne, h1]

/-- Witness for C2: steps `["a","b"]` at `current_step = 1` succeeding
transitions to completed with stored index 2; and a pre-existing
out-of-range index is completed without execution. -/
theorem C2_completion_transition_witness :
    processAgentBody "a1" ["a", "b"] 1 ⟨true, some "done", none⟩ =
      [SchedEvent.execStep 1 "b",
       SchedEvent.writeProgress 2 1 "completed" (logText ⟨true, some "done", none⟩),
       SchedEvent.setState "completed",
       SchedEvent.addLog "a1" 1 "b" (logText ⟨true, some "done", none⟩) true] ∧
    processAgentBody "a1" ["a"] 3 ⟨true, some "done", none⟩ =
      [SchedEvent.setState "completed"] :=
  ⟨(C2_completion_transition "a1" ["a", "b"] 1 ⟨true, some "done", none⟩
      (by decide)).1 (by decide) rfl rfl,
   (C2_completion_transition "a1" ["a"] 3 ⟨true, some "done", none⟩
      (by decide)).2 (by decide)⟩

theorem add_execution_log_length (ts a : String) (st : Nat) (txt res : String) (ok : Bool)
    (log : List LogEntry) (h : log.length ≤ 100) :
    (add_execution_log ts a st txt res ok log).length ≤ 100 := by
  simp only [add_execution_log]
  split
  · simpa [MAX_LOG_ENTRIES] using List.length_take_le 100 _
  · next hgt =>
    rw [not_lt] at hgt
    simpa [MAX_LOG_ENTRIES] using hgt

theorem runLog_length_le (ops : List (String × String × Nat × String × String × Bool)) :
    (runLog ops).length ≤ 100 := by
  unfold runLog
  suffices h : ∀ init : List LogEntry, init.length ≤ 100 →
      (ops.foldl (fun l o =>
        add_execution_log o.1 o.2.1 o.2.2.1 o.2.2.2.1 o.2.2.2.2.1 o.2.2.2.2.2 l) init).length
        ≤ 100 by
    exact h [] (by simp)
  induction ops with
  | nil => intro init hi; simpa using hi
  | cons o rest ih =>
    intro init hi
    exact ih _ (add_execution_log_length _ _ _ _ _ _ _ hi)

/-- Claim C9: `add_execution_log` prepends one entry carrying the
timestamp, agent id, step index, step text, result truncated to 500
characters and success flag; any sequence of adds from the empty
initial log keeps at most 100 entries, evicting the oldest from the
back once the cap is exceeded; `get_execution_log` returns the newest
at most `limit` entries most-recent-first; and a scheduler trace records
one log append per step execution attempt. -/
theorem C9_execution_log (ts a : String) (st : Nat) (txt res : String) (ok : Bool)
    (log : List LogEntry) (limit : Nat) :
    (add_execution_log ts a st txt res ok log).head? =
      some ⟨ts, a, st, txt, res.take 500, ok⟩ ∧
    (log.length ≤ 100 → (add_execution_log ts a st txt res ok log).length ≤ 100) ∧
    (∀ ops, (runLog ops).length ≤ 100) ∧
    (log.length = 100 →
      add_execution_log ts a st txt res ok log =
        ⟨ts, a, st, txt, res.take 500, ok⟩ :: log.dropLast) ∧
    get_execution_log limit log = log.take limit ∧
    (get_execution_log limit log).length ≤ limit ∧
    (∀ agent_id steps cs r, countLogEv (processAgentBody agent_id steps cs r) =
      countExecEv (processAgentBody agent_id steps cs r)) := by
  refine ⟨?_, fun h => add_execution_log_length _ _ _ _ _ _ _ h, runLog_length_le, ?_, rfl,
    by simpa [get_execution_log] using List.length_take_le limit log, ?_⟩
  · simp only [add_execution_log]
    split
    · rw [show (MAX_LOG_ENTRIES : Nat) = 99 + 1 from rfl, List.take_succ_cons]
      rfl
    · rfl
  · intro h
    simp only [add_execution_log]
    have hlen : ((⟨ts, a, st, txt, res.take 500, ok⟩ : LogEntry) :: log).length
        > MAX_LOG_ENTRIES := by
      simp [h, MAX_LOG_ENTRIES]
    rw [if_pos hlen, show (MAX_LOG_ENTRIES : Nat) = 99 + 1 from rfl, List.take_succ_cons,
      List.dropLast_eq_take, h]
  · intro agent_id steps cs r
    by_cases h0 : steps = []
    · simp [processAgentBody, h0, countLogEv, countExecEv]
    · by_cases h1 : steps.length ≤ cs
      · simp [processAgentBody, h0, h1, countLogEv, countExecEv]
      · by_cases hs : r.success = true
        · by_cases h2 : steps.length ≤ cs + 1 <;>
            simp [processAgentBody, h0, h1, hs, h2, countLogEv, countExecEv,
              List.countP_cons, List.countP_append]
        · have hs' : r.success = false := by
            cases hr : r.success
            · rfl
            · exact absurd hr hs
          simp [processAgentBody, h0, h1, hs', countLogEv, countExecEv, List.countP_cons]

/-- Witness for C9 at the cap: a 100-entry log accepts one more entry by
evicting the oldest from the back. -/
theorem C9_execution_log_witness :
    (add_execution_log "t" "a" 0 "s" "r" true
      (List.replicate 100 ⟨"t0", "a0", 0, "s0", "r0", false⟩)).length ≤ 100 ∧
    add_execution_log "t" "a" 0 "s" "r" true
        (List.replicate 100 ⟨"t0", "a0", 0, "s0", "r0", false⟩) =
      ⟨"t", "a", 0, "s", "r".take 500, true⟩ ::
        (List.replicate 100 (⟨"t0", "a0", 0, "s0", "r0", false⟩ : LogEntry)).dropLast := by
  have h := C9_execution_log "t" "a" 0 "s" "r" true
    (List.replicate 100 ⟨"t0", "a0", 0, "s0", "r0", false⟩) 5
  exact ⟨h.2.1 (by simp), h.2.2.2.1 (by simp)⟩

/-! ## Conversation-engine helper lemmas -/

theorem execCalls_cons (tools : Nat → String) (c : ToolCallReq) (rest : List ToolCallReq)
    (msgs : List Msg) (tc : List String) :
    execCalls tools (c :: rest) msgs tc =
      execCalls tools rest (msgs ++ [mkTool (tools tc.length)]) (tc ++ [c.name]) := rfl

theorem execCalls_snd (tools : Nat → String) :
    ∀ (calls : List ToolCallReq) (msgs : List Msg) (tc : List String),
      (execCalls tools calls msgs tc).2 = tc ++ calls.map (fun c => c.name) := by
  intro calls
  induction calls with
  | nil => intro msgs tc; simp [execCalls]
  | cons c rest ih =>
    intro msgs tc
    rw [execCalls_cons, ih]
    simp

theorem execCalls_mem (tools : Nat → String) :
    ∀ (calls : List ToolCallReq) (msgs : List Msg) (tc : List String) (x : Msg),
      x ∈ msgs → x ∈ (execCalls tools calls msgs tc).1 := by
  intro calls
  induction calls with
  | nil => intro msgs tc x hx; exact hx
  | cons c rest ih =>
    intro msgs tc x hx
    rw [execCalls_cons]
    exact ih _ _ x (List.mem_append.mpr (Or.inl hx))

theorem execCalls_mem_tool (tools : Nat → String) (calls : List ToolCallReq)
    (msgs : List Msg) (tc : List String) (h : calls ≠ []) :
    mkTool (tools tc.length) ∈ (execCalls tools calls msgs tc).1 := by
  cases calls with
  | nil => exact absurd rfl h
  | cons c rest =>
    rw [execCalls_cons]
    exact execCalls_mem tools rest _ _ _ (List.mem_append.mpr (Or.inr (by simp)))

/-- One unfolding of the loop body (the `while` pass of lines 168-254). -/
theorem chatLoop_succ (chat : Nat → ChatResponse) (tools : Nat → String) (nudge : String)
    (fuel iteration : Nat) (msgs : List Msg) (tc acc : List String) :
    chatLoop chat tools nudge (fuel + 1) iteration msgs tc acc =
      match chat iteration with
      | .connError => .fail connErrorMsg none msgs
      | .timeoutErr => .fail timeoutErrMsg none msgs
      | .response status body =>
        if status ≠ 200 then .fail (httpErrorMsg status) none msgs
        else
          match body with
          | none => .fail invalidJsonMsg none msgs
          | some am =>
            if am.tool_calls = [] ∧ iteration = 0 ∧ tc = [] then
              chatLoop chat tools nudge fuel (iteration + 1)
                (msgs ++ [mkAssistant am.content am.tool_calls, mkUser nudge]) tc
                (if pystrip am.content ≠ "" then acc ++ [pystrip am.content] else acc)
            else if am.content ≠ "" ∧ am.tool_calls = [] ∧ tc ≠ [] then
              .done am.content (msgs ++ [mkAssistant am.content am.tool_calls])
            else if am.tool_calls = [] then
              if tc = [] then
                .fail "LLM did not call any tools for this step" (some am.content)
                  (msgs ++ [mkAssistant am.content am.tool_calls])
              else
                .done (if am.content = "" then "Step completed." else am.content)
                  (msgs ++ [mkAssistant am.content am.tool_calls])
            else
              chatLoop chat tools nudge fuel (iteration + 1)
                (execCalls tools am.tool_calls
                  (msgs ++ [mkAssistant am.content am.tool_calls]) tc).1
                (execCalls tools am.tool_calls
                  (msgs ++ [mkAssistant am.content am.tool_calls]) tc).2
                (if pystrip am.content ≠ "" then acc ++ [pystrip am.content] else acc) := rfl

theorem chatLoop_connError (chat : Nat → ChatResponse) (tools : Nat → String)
    (nudge : String) (fuel iteration : Nat) (msgs : List Msg) (tc acc : List String)
    (h : chat iteration = .connError) :
    chatLoop chat tools nudge (fuel + 1) iteration msgs tc acc =
      .fail connErrorMsg none msgs := by
  rw [chatLoop_succ, h]

theorem chatLoop_timeout (chat : Nat → ChatResponse) (tools : Nat → String)
    (nudge : String) (fuel iteration : Nat) (msgs : List Msg) (tc acc : List String)
    (h : chat iteration = .timeoutErr) :
    chatLoop chat tools nudge (fuel + 1) iteration msgs tc acc =
      .fail timeoutErrMsg none msgs := by
  rw [chatLoop_succ, h]

theorem chatLoop_badStatus (chat : Nat → ChatResponse) (tools : Nat → String)
    (nudge : String) (fuel iteration : Nat) (msgs : List Msg) (tc acc : List String)
    (status : Nat) (body : Option AssistantMsg) (hs : status ≠ 200)
    (h : chat iteration = .response status body) :
    chatLoop chat tools nudge (fuel + 1) iteration msgs tc acc =
      .fail (httpErrorMsg status) none msgs := by
  rw [chatLoop_succ, h]
  exact if_pos hs

theorem chatLoop_badJson (chat : Nat → ChatResponse) (tools : Nat → String)
    (nudge : String) (fuel iteration : Nat) (msgs : List Msg) (tc acc : List String)
    (h : chat iteration = .response 200 none) :
    chatLoop chat tools nudge (fuel + 1) iteration msgs tc acc =
      .fail invalidJsonMsg none msgs := by
  rw [chatLoop_succ, h]
  exact if_neg (by decide)

/-- One unfolding of the loop body on a well-formed 200 response. -/
theorem chatLoop_ok (chat : Nat → ChatResponse) (tools : Nat → String) (nudge : String)
    (fuel iteration : Nat) (msgs : List Msg) (tc acc : List String) (am : AssistantMsg)
    (h : chat iteration = .response 200 (some am)) :
    chatLoop chat tools nudge (fuel + 1) iteration msgs tc acc =
      (if am.tool_calls = [] ∧ iteration = 0 ∧ tc = [] then
        chatLoop chat tools nudge fuel (iteration + 1)
          (msgs ++ [mkAssistant am.content am.tool_calls, mkUser nudge]) tc
          (if pystrip am.content ≠ "" then acc ++ [pystrip am.content] else acc)
      else if am.content ≠ "" ∧ am.tool_calls = [] ∧ tc ≠ [] then
        .done am.content (msgs ++ [mkAssistant am.content am.tool_calls])
      else if am.tool_calls = [] then
        (if tc = [] then
          .fail "LLM did not call any tools for this step" (some am.content)
            (msgs ++ [mkAssistant am.content am.tool_calls])
        else
          .done (if am.content = "" then "Step completed." else am.content)
            (msgs ++ [mkAssistant am.content am.tool_calls]))
      else
        chatLoop chat tools nudge fuel (iteration + 1)
          (execCalls tools am.tool_calls
            (msgs ++ [mkAssistant am.content am.tool_calls]) tc).1
          (execCalls tools am.tool_calls
            (msgs ++ [mkAssistant am.content am.tool_calls]) tc).2
          (if pystrip am.content ≠ "" then acc ++ [pystrip am.content] else acc)) := by
  rw [chatLoop_succ, h]
  exact if_neg (by decide)

/-! ## Conversation-engine claims -/

/-- Claim C3: success determination — a non-blank final result always
yields success=true even when a tool call in the trace errored; the
outcome is success=false with error "Tool execution returned an error"
exactly when the final result is empty or whitespace and at least one
tool-role message in the trace parses as an error payload; and a loop
exit with a non-blank final answer makes `execute_telos_step` succeed
with that answer. -/
theorem C3_success_determination (errP : String → Bool) (final : String) (msgs : List Msg) :
    (pystrip final ≠ "" → finalCheck errP final msgs = ⟨true, some final, none⟩) ∧
    ((finalCheck errP final msgs).success = false ↔
      (pystrip final = "" ∧ toolHadError errP msgs = true)) ∧
    (pystrip final = "" → toolHadError errP msgs = true →
      finalCheck errP final msgs =
        ⟨false, some "", some "Tool execution returned an error"⟩) ∧
    (∀ chat summary tools dn pa ap rp rn st msgs2,
      chatLoop chat tools (nudgeMsg ap st) maxIterations 0
          (initMsgs dn pa ap rp rn st) [] [] = .done final msgs2 →
      pystrip final ≠ "" →
      execute_telos_step errP chat summary tools dn pa ap rp rn st =
        ⟨true, some final, none⟩) := by
  refine ⟨?_, ?_, ?_, ?_⟩
  · intro h
    simp [finalCheck, h]
  · unfold finalCheck
    by_cases h : pystrip final = ""
    · by_cases ht : toolHadError errP msgs = true
      · simp [h, ht]
      · simp [h, ht]
    · simp [h]
  · intro h ht
    simp [finalCheck, h, ht]
  · intro chat summary tools dn pa ap rp rn st msgs2 hloop hne
    simp only [execute_telos_step, hloop]
    simp [finalCheck, hne]

/-- Witness for C3: a non-blank final answer succeeds over a trace with
an errored tool call; a whitespace-only final answer over the same trace
fails with the tool-error message. -/
theorem C3_success_determination_witness :
    finalCheck errPJson "I did it." [mkTool "\x7b\"error\": \"x\"\x7d"] =
      ⟨true, some "I did it.", none⟩ ∧
    finalCheck errPJson " " [mkTool "\x7b\"error\": \"x\"\x7d"] =
      ⟨false, some "", some "Tool execution returned an error"⟩ :=
  ⟨(C3_success_determination errPJson "I did it." [mkTool "\x7b\"error\": \"x\"\x7d"]).1
      (by decide),
   (C3_success_determination errPJson " " [mkTool "\x7b\"error\": \"x\"\x7d"]).2.2.1
      (by decide) (by decide)⟩

/-- Claim C7: in every iteration of the tool-calling loop, a connection
error, a timeout, a non-200 HTTP status or an invalid-JSON body makes
the step return immediately with success=false and a descriptive error
message, with no retry inside the loop; lifted to `execute_telos_step`
for the first iteration. -/
theorem C7_network_failures (chat : Nat → ChatResponse) (tools : Nat → String)
    (nudge : String) (fuel iteration : Nat) (msgs : List Msg) (tc acc : List String)
    (errP : String → Bool) (summary : Nat → SummaryResponse)
    (dn pa ap rp rn st : String) :
    (chat iteration = .connError →
      chatLoop chat tools nudge (fuel + 1) iteration msgs tc acc =
        .fail connErrorMsg none msgs) ∧
    (chat iteration = .timeoutErr →
      chatLoop chat tools nudge (fuel + 1) iteration msgs tc acc =
        .fail timeoutErrMsg none msgs) ∧
    (∀ status body, status ≠ 200 → chat iteration = .response status body →
      chatLoop chat tools nudge (fuel + 1) iteration msgs tc acc =
        .fail (httpErrorMsg status) none msgs) ∧
    (chat iteration = .response 200 none →
      chatLoop chat tools nudge (fuel + 1) iteration msgs tc acc =
        .fail invalidJsonMsg none msgs) ∧
    (chat 0 = .connError →
      execute_telos_step errP chat summary tools dn pa ap rp rn st =
        ⟨false, none, some connErrorMsg⟩) ∧
    (chat 0 = .timeoutErr →
      execute_telos_step errP chat summary tools dn pa ap rp rn st =
        ⟨false, none, some timeoutErrMsg⟩) ∧
    (∀ status body, status ≠ 200 → chat 0 = .response status body →
      execute_telos_step errP chat summary tools dn pa ap rp rn st =
        ⟨false, none, some (httpErrorMsg status)⟩) ∧
    (chat 0 = .response 200 none →
      execute_telos_step errP chat summary tools dn pa ap rp rn st =
        ⟨false, none, some invalidJsonMsg⟩) := by
  have hconn : ∀ (nu : String) (fu it : Nat) (m : List Msg) (t a : List String),
      chat it = .connError →
      chatLoop chat tools nu (fu + 1) it m t a = .fail connErrorMsg none m := by
    intro nu fu it m t a h
    simp only [chatLoop, h]
  have htime : ∀ (nu : String) (fu it : Nat) (m : List Msg) (t a : List String),
      chat it = .timeoutErr →
      chatLoop chat tools nu (fu + 1) it m t a = .fail timeoutErrMsg none m := by
    intro nu fu it m t a h
    simp only [chatLoop, h]
  have hstat : ∀ (nu : String) (fu it : Nat) (m : List Msg) (t a : List String)
      (status : Nat) (body : Option AssistantMsg), status ≠ 200 →
      chat it = .response status body →
      chatLoop chat tools nu (fu + 1) it m t a = .fail (httpErrorMsg status) none m := by
    intro nu fu it m t a status body hs h
    simp only [chatLoop, h]
    rw [if_pos hs]
  have hjson : ∀ (nu : String) (fu it : Nat) (m : List Msg) (t a : List String),
      chat it = .response 200 none →
      chatLoop chat tools nu (fu + 1) it m t a = .fail invalidJsonMsg none m := by
    intro nu fu it m t a h
    simp only [chatLoop, h]
    rw [if_neg (by decide : ¬(200 : Nat) ≠ 200)]
  have hm8 : maxIterations = 7 + 1 := rfl
  refine ⟨hconn nudge fuel iteration msgs tc acc, htime nudge fuel iteration msgs tc acc,
    fun status body hs h => hstat nudge fuel iteration msgs tc acc status body hs h,
    hjson nudge fuel iteration msgs tc acc, ?_, ?_, ?_, ?_⟩
  · intro h
    rw [execute_telos_step, hm8, hconn _ _ _ _ _ _ h]
  · intro h
    rw [execute_telos_step, hm8, htime _ _ _ _ _ _ h]
  · intro status body hs h
    rw [execute_telos_step, hm8, hstat _ _ _ _ _ _ status body hs h]
  · intro h
    rw [execute_telos_step, hm8, hjson _ _ _ _ _ _ h]

/-- Witness for C7: a connection error on the first request fails the
step with the offline message. -/
theorem C7_network_failures_witness :
    chatLoop (fun _ => ChatResponse.connError) toolsErr "n" 8 0 [] [] [] =
      .fail connErrorMsg none [] ∧
    execute_telos_step errPJson (fun _ => ChatResponse.connError) summaryEmpty toolsErr
      "" "" "" "" "" "s" = ⟨false, none, some connErrorMsg⟩ := by
  have h := C7_network_failures (fun _ => ChatResponse.connError) toolsErr "n" 7 0 [] [] []
    errPJson summaryEmpty "" "" "" "" "" "s"
  exact ⟨h.1 rfl, h.2.2.2.2.1 rfl⟩

/-- Claim C10 (implicit): if an assistant response inside the loop
carries no tool calls and an empty content string while at least one
tool has already been called, the literal string "Step completed."
becomes the final result and `execute_telos_step` returns success=true,
even when every tool call in the trace returned an error payload (the
tool-result oracle and `errP` are unconstrained). -/
theorem C10_empty_content_success (errP : String → Bool) (chat : Nat → ChatResponse)
    (summary : Nat → SummaryResponse) (tools : Nat → String)
    (dn pa ap rp rn st : String) (am0 am1 : AssistantMsg)
    (h0 : chat 0 = .response 200 (some am0)) (h0t : am0.tool_calls ≠ [])
    (h1 : chat 1 = .response 200 (some am1)) (h1t : am1.tool_calls = [])
    (h1c : am1.content = "") :
    (∀ (fuel it : Nat) (m : List Msg) (t a : List String) (am : AssistantMsg),
      t ≠ [] → chat it = .response 200 (some am) → am.tool_calls = [] → am.content = "" →
      chatLoop chat tools (nudgeMsg ap st) (fuel + 1) it m t a =
        .done "Step completed." (m ++ [mkAssistant am.content am.tool_calls])) ∧
    (∀ msgs2 : List Msg, finalCheck errP "Step completed." msgs2 =
      ⟨true, some "Step completed.", none⟩) ∧
    execute_telos_step errP chat summary tools dn pa ap rp rn st =
      ⟨true, some "Step completed.", none⟩ := by
  have key : ∀ (fuel it : Nat) (m : List Msg) (t a : List String) (am : AssistantMsg),
      t ≠ [] → chat it = .response 200 (some am) → am.tool_calls = [] → am.content = "" →
      chatLoop chat tools (nudgeMsg ap st) (fuel + 1) it m t a =
        .done "Step completed." (m ++ [mkAssistant am.content am.tool_calls]) := by
    intro fuel it m t a am ht hc hct hcc
    rw [chatLoop_ok _ _ _ _ _ _ _ _ _ hc, if_neg (fun hh => ht hh.2.2),
      if_neg (fun hh => hh.1 hcc), if_pos hct, if_neg ht, if_pos hcc]
  have hfc : ∀ msgs2 : List Msg, finalCheck errP "Step completed." msgs2 =
      ⟨true, some "Step completed.", none⟩ := by
    intro msgs2
    have hne : pystrip "Step completed." ≠ "" := by decide
    simp [finalCheck, hne]
  refine ⟨key, hfc, ?_⟩
  rw [execute_telos_step, show maxIterations = 7 + 1 from rfl,
    chatLoop_ok _ _ _ _ _ _ _ _ _ h0, if_neg (fun hh => h0t hh.1),
    if_neg (fun hh => h0t hh.2.1), if_neg h0t]
  have htne : (execCalls tools am0.tool_calls
      (initMsgs dn pa ap rp rn st ++ [mkAssistant am0.content am0.tool_calls]) []).2 ≠ [] := by
    rw [execCalls_snd]
    simp [h0t]
  rw [show (7 : Nat) = 6 + 1 from rfl, key 6 1 _ _ _ am1 htne h1 h1t h1c]
  exact hfc _

/-- Witness for C10: one errored tool call, then an empty no-tool-call
response, yields success with "Step completed.". -/
theorem C10_empty_content_success_witness :
    execute_telos_step errPJson chatToolThenEmpty summaryEmpty toolsErr
      "" "" "" "" "" "s" = ⟨true, some "Step completed.", none⟩ ∧
    errPJson (toolsErr 0) = true :=
  ⟨(C10_empty_content_success errPJson chatToolThenEmpty summaryEmpty toolsErr
      "" "" "" "" "" "s" ⟨"", [⟨"join_realm", []⟩]⟩ ⟨"", []⟩
      rfl (by decide) rfl rfl rfl).2.2, rfl⟩

/-- Claim C5: when the model never returns a tool call, the engine
appends exactly one corrective nudge after the first tool-call-free
response; if the second response also carries no tool calls while no
tool was ever called, the step fails with "LLM did not call any tools
for this step"; and a model that never calls tools can never make the
step succeed. -/
theorem C5_nudge_then_fail (errP : String → Bool) (chat : Nat → ChatResponse)
    (summary : Nat → SummaryResponse) (tools : Nat → String)
    (dn pa ap rp rn st : String) (am0 am1 : AssistantMsg) :
    (chat 0 = .response 200 (some am0) → am0.tool_calls = [] →
     chat 1 = .response 200 (some am1) → am1.tool_calls = [] →
      chatLoop chat tools (nudgeMsg ap st) maxIterations 0
          (initMsgs dn pa ap rp rn st) [] [] =
        .fail "LLM did not call any tools for this step" (some am1.content)
          (initMsgs dn pa ap rp rn st ++
            [mkAssistant am0.content am0.tool_calls, mkUser (nudgeMsg ap st),
             mkAssistant am1.content am1.tool_calls]) ∧
      execute_telos_step errP chat summary tools dn pa ap rp rn st =
        ⟨false, some am1.content, some "LLM did not call any tools for this step"⟩) ∧
    ((∀ n s am, chat n = .response s (some am) → am.tool_calls = []) →
      (execute_telos_step errP chat summary tools dn pa ap rp rn st).success = false) := by
  have hfail2 : ∀ (fu : Nat) (m : List Msg) (a : List String) (am : AssistantMsg),
      chat 1 = .response 200 (some am) → am.tool_calls = [] →
      chatLoop chat tools (nudgeMsg ap st) (fu + 1) 1 m [] a =
        .fail "LLM did not call any tools for this step" (some am.content)
          (m ++ [mkAssistant am.content am.tool_calls]) := by
    intro fu m a am hc hct
    rw [chatLoop_ok _ _ _ _ _ _ _ _ _ hc,
      if_neg (fun hh => (by decide : (1 : Nat) ≠ 0) hh.2.1),
      if_neg (fun hh => hh.2.2 rfl), if_pos hct, if_pos rfl]
  have hmain : chat 0 = .response 200 (some am0) → am0.tool_calls = [] →
      chat 1 = .response 200 (some am1) → am1.tool_calls = [] →
      chatLoop chat tools (nudgeMsg ap st) maxIterations 0
          (initMsgs dn pa ap rp rn st) [] [] =
        .fail "LLM did not call any tools for this step" (some am1.content)
          (initMsgs dn pa ap rp rn st ++
            [mkAssistant am0.content am0.tool_calls, mkUser (nudgeMsg ap st),
             mkAssistant am1.content am1.tool_calls]) := by
    intro h0 h0t h1 h1t
    rw [show maxIterations = 7 + 1 from rfl, chatLoop_ok _ _ _ _ _ _ _ _ _ h0,
      if_pos ⟨h0t, rfl, rfl⟩, show (7 : Nat) = 6 + 1 from rfl, hfail2 6 _ _ am1 h1 h1t,
      List.append_assoc]
    rfl
  constructor
  · intro h0 h0t h1 h1t
    refine ⟨hmain h0 h0t h1 h1t, ?_⟩
    rw [execute_telos_step, hmain h0 h0t h1 h1t]
  · intro hno
    rcases hc0 : chat 0 with _ | _ | ⟨s0, b0⟩
    · rw [execute_telos_step, show maxIterations = 7 + 1 from rfl,
        chatLoop_connError _ _ _ _ _ _ _ _ hc0]
    · rw [execute_telos_step, show maxIterations = 7 + 1 from rfl,
        chatLoop_timeout _ _ _ _ _ _ _ _ hc0]
    · rcases b0 with _ | am0
      · by_cases hs0 : s0 = 200
        · subst hs0
          rw [execute_telos_step, show maxIterations = 7 + 1 from rfl,
            chatLoop_badJson _ _ _ _ _ _ _ _ hc0]
        · rw [execute_telos_step, show maxIterations = 7 + 1 from rfl,
            chatLoop_badStatus _ _ _ _ _ _ _ _ _ _ hs0 hc0]
      · by_cases hs0 : s0 = 200
        · subst hs0
          have h0t := hno 0 200 am0 hc0
          rw [execute_telos_step, show maxIterations = 7 + 1 from rfl,
            chatLoop_ok _ _ _ _ _ _ _ _ _ hc0, if_pos ⟨h0t, rfl, rfl⟩,
            show (7 : Nat) = 6 + 1 from rfl]
          rcases hc1 : chat 1 with _ | _ | ⟨s1, b1⟩
          · rw [chatLoop_connError _ _ _ _ _ _ _ _ hc1]
          · rw [chatLoop_timeout _ _ _ _ _ _ _ _ hc1]
          · rcases b1 with _ | am1
            · by_cases hs1 : s1 = 200
              · subst hs1
                rw [chatLoop_badJson _ _ _ _ _ _ _ _ hc1]
              · rw [chatLoop_badStatus _ _ _ _ _ _ _ _ _ _ hs1 hc1]
            · by_cases hs1 : s1 = 200
              · subst hs1
                have h1t := hno 1 200 am1 hc1
                rw [hfail2 6 _ _ am1 hc1 h1t]
              · rw [chatLoop_badStatus _ _ _ _ _ _ _ _ _ _ hs1 hc1]
        · rw [execute_telos_step, show maxIterations = 7 + 1 from rfl,
            chatLoop_badStatus _ _ _ _ _ _ _ _ _ _ hs0 hc0]

/-- Witness for C5: a model that chats without tool calls twice makes
the step fail with the no-tools error after one nudge. -/
theorem C5_nudge_then_fail_witness :
    execute_telos_step errPJson chatNoTools summaryEmpty toolsErr "" "" "" "" "" "s" =
      ⟨false, some "hello", some "LLM did not call any tools for this step"⟩ ∧
    (execute_telos_step errPJson chatNoTools summaryEmpty toolsErr "" "" "" "" "" "s").success
      = false :=
  ⟨((C5_nudge_then_fail errPJson chatNoTools summaryEmpty toolsErr "" "" "" "" "" "s"
      ⟨"hello", []⟩ ⟨"hello", []⟩).1 rfl rfl rfl rfl).2,
   (C5_nudge_then_fail errPJson chatNoTools summaryEmpty toolsErr "" "" "" "" "" "s"
      ⟨"hello", []⟩ ⟨"hello", []⟩).2 (fun n s am h => by
        simp only [chatNoTools, ChatResponse.response.injEq, Option.some.injEq] at h
        rw [← h.2])⟩

/-! ## Exhaustion-fallback helper lemmas -/

theorem execute_done (errP : String → Bool) (chat : Nat → ChatResponse)
    (summary : Nat → SummaryResponse) (tools : Nat → String)
    (dn pa ap rp rn st final : String) (msgs : List Msg)
    (h : chatLoop chat tools (nudgeMsg ap st) maxIterations 0
      (initMsgs dn pa ap rp rn st) [] [] = .done final msgs) :
    execute_telos_step errP chat summary tools dn pa ap rp rn st =
      finalCheck errP final msgs := by
  rw [execute_telos_step, h]

theorem execute_exhausted (errP : String → Bool) (chat : Nat → ChatResponse)
    (summary : Nat → SummaryResponse) (tools : Nat → String)
    (dn pa ap rp rn st : String) (msgs : List Msg) (tc acc : List String)
    (h : chatLoop chat tools (nudgeMsg ap st) maxIterations 0
      (initMsgs dn pa ap rp rn st) [] [] = .exhausted msgs tc acc) :
    execute_telos_step errP chat summary tools dn pa ap rp rn st =
      finalCheck errP (afterExhaustion summary msgs tc acc).1
        (afterExhaustion summary msgs tc acc).2 := by
  rw [execute_telos_step, h]

theorem trySummary_strip (r : SummaryResponse) (t : String) (m : Msg)
    (h : trySummary r = some (t, m)) : pystrip t ≠ "" := by
  rcases r with _ | ⟨status, body⟩
  · simp [trySummary] at h
  · simp only [trySummary] at h
    by_cases hs : status = 200
    · rw [if_pos hs] at h
      rcases body with _ | am
      · simp at h
      · have h' : (if pystrip am.content ≠ "" then
            some (pystrip am.content, mkAssistant am.content am.tool_calls)
          else none) = some (t, m) := h
        by_cases hc : pystrip am.content ≠ ""
        · rw [if_pos hc] at h'
          simp only [Option.some.injEq, Prod.mk.injEq] at h'
          obtain ⟨h1, -⟩ := h'
          subst h1
          rcases pystrip_ne_empty_mem am.content hc with ⟨ch, hch, hw⟩
          exact pystrip_ne_empty_of_mem _ ch hch hw
        · rw [if_neg hc] at h'; cases h'
    · rw [if_neg hs] at h; cases h

theorem afterExhaustion_some0 (summary : Nat → SummaryResponse) (msgs : List Msg)
    (tc acc : List String) (t : String) (m : Msg)
    (h : trySummary (summary 0) = some (t, m)) :
    afterExhaustion summary msgs tc acc = (t, msgs ++ [mkUser summaryPrompt0] ++ [m]) := by
  unfold afterExhaustion
  rw [h]

theorem afterExhaustion_some1 (summary : Nat → SummaryResponse) (msgs : List Msg)
    (tc acc : List String) (t : String) (m : Msg)
    (h0 : trySummary (summary 0) = none) (h1 : trySummary (summary 1) = some (t, m)) :
    afterExhaustion summary msgs tc acc =
      (t, msgs ++ [mkUser summaryPrompt0] ++ [mkUser summaryPrompt1] ++ [m]) := by
  unfold afterExhaustion
  rw [h0, h1]

theorem afterExhaustion_none (summary : Nat → SummaryResponse) (msgs : List Msg)
    (tc acc : List String)
    (h0 : trySummary (summary 0) = none) (h1 : trySummary (summary 1) = none) :
    afterExhaustion summary msgs tc acc =
      (if acc ≠ [] then joinNL acc else synthFallback tc.length,
       msgs ++ [mkUser summaryPrompt0] ++ [mkUser summaryPrompt1]) := by
  unfold afterExhaustion
  rw [h0, h1]

theorem synthFallback_ne_empty (n : Nat) : pystrip (synthFallback n) ≠ "" := by
  apply pystrip_ne_empty_of_mem _ 'S' _ (by decide)
  unfold synthFallback
  simp only [String.data_append, List.mem_append]
  exact Or.inl (Or.inl (by decide))

theorem accInv_nil : accInv [] := by
  intro x hx
  cases hx

theorem accInv_extend (acc : List String) (c : String) (h : accInv acc) :
    accInv (if pystrip c ≠ "" then acc ++ [pystrip c] else acc) := by
  split
  · next hc =>
    intro x hx
    rcases List.mem_append.mp hx with hx | hx
    · exact h x hx
    · rcases List.mem_singleton.mp hx with rfl
      exact pystrip_ne_empty_mem c hc
  · exact h

theorem chatLoop_exhausted_accInv (chat : Nat → ChatResponse) (tools : Nat → String)
    (nudge : String) :
    ∀ (fuel it : Nat) (msgs : List Msg) (tc acc : List String) (m : List Msg)
      (t a : List String), accInv acc →
      chatLoop chat tools nudge fuel it msgs tc acc = .exhausted m t a → accInv a := by
  intro fuel
  induction fuel with
  | zero =>
    intro it msgs tc acc m t a hinv h
    rw [show chatLoop chat tools nudge 0 it msgs tc acc = .exhausted msgs tc acc from rfl] at h
    cases h
    exact hinv
  | succ n ih =>
    intro it msgs tc acc m t a hinv h
    rcases hc : chat it with _ | _ | ⟨status, body⟩
    · rw [chatLoop_connError _ _ _ _ _ _ _ _ hc] at h; cases h
    · rw [chatLoop_timeout _ _ _ _ _ _ _ _ hc] at h; cases h
    · by_cases hs : status = 200
      · subst hs
        rcases body with _ | am
        · rw [chatLoop_badJson _ _ _ _ _ _ _ _ hc] at h; cases h
        · rw [chatLoop_ok _ _ _ _ _ _ _ _ _ hc] at h
          by_cases c1 : am.tool_calls = [] ∧ it = 0 ∧ tc = []
          · rw [if_pos c1] at h
            exact ih _ _ _ _ _ _ _ (accInv_extend _ _ hinv) h
          · rw [if_neg c1] at h
            by_cases c2 : am.content ≠ "" ∧ am.tool_calls = [] ∧ tc ≠ []
            · rw [if_pos c2] at h; cases h
            · rw [if_neg c2] at h
              by_cases c3 : am.tool_calls = []
              · rw [if_pos c3] at h
                by_cases c4 : tc = []
                · rw [if_pos c4] at h; cases h
                · rw [if_neg c4] at h; cases h
              · rw [if_neg c3] at h
                exact ih _ _ _ _ _ _ _ (accInv_extend _ _ hinv) h
      · rw [chatLoop_badStatus _ _ _ _ _ _ _ _ _ _ hs hc] at h; cases h

theorem chatLoop_allTools_exhausts (chat : Nat → ChatResponse) (tools : Nat → String)
    (nudge : String)
    (hall : ∀ n, ∃ am, chat n = .response 200 (some am) ∧ am.tool_calls ≠ [] ∧
      pystrip am.content = "") :
    ∀ (fuel it : Nat) (msgs : List Msg) (tc acc : List String),
      ∃ m t, chatLoop chat tools nudge fuel it msgs tc acc = .exhausted m t acc := by
  intro fuel
  induction fuel with
  | zero => intro it msgs tc acc; exact ⟨msgs, tc, rfl⟩
  | succ n ih =>
    intro it msgs tc acc
    obtain ⟨am, hc, hne, hstrip⟩ := hall it
    have hacc : (if pystrip am.content ≠ "" then acc ++ [pystrip am.content] else acc)
        = acc := if_neg (fun hx => hx hstrip)
    obtain ⟨m, t, hrec⟩ := ih (it + 1)
      (execCalls tools am.tool_calls (msgs ++ [mkAssistant am.content am.tool_calls]) tc).1
      (execCalls tools am.tool_calls (msgs ++ [mkAssistant am.content am.tool_calls]) tc).2
      acc
    refine ⟨m, t, ?_⟩
    rw [chatLoop_ok _ _ _ _ _ _ _ _ _ hc, if_neg (fun hh => hne hh.1),
      if_neg (fun hh => hne hh.2.1), if_neg hne, hacc]
    exact hrec

/-- Claim C6: when the tool-calling loop exhausts `max_iterations` with
no accepted final text, the engine consults at most the two
forced-summary responses (sent without tools), accepts the first whose
stripped text is non-empty as the final result, and otherwise falls
back to the accumulated narration joined by newlines, or else the
synthesized string "Step completed (N tool calls executed)." with N the
number of tool calls made; in every one of these outcomes
`execute_telos_step` returns success=true with that final result. -/
theorem C6_forced_summary_fallback (errP : String → Bool) (chat : Nat → ChatResponse)
    (summary : Nat → SummaryResponse) (tools : Nat → String)
    (dn pa ap rp rn st : String) (msgs : List Msg) (tc acc : List String)
    (hexh : chatLoop chat tools (nudgeMsg ap st) maxIterations 0
      (initMsgs dn pa ap rp rn st) [] [] = .exhausted msgs tc acc) :
    (∀ t m, trySummary (summary 0) = some (t, m) →
      (afterExhaustion summary msgs tc acc).1 = t) ∧
    (∀ t m, trySummary (summary 0) = none → trySummary (summary 1) = some (t, m) →
      (afterExhaustion summary msgs tc acc).1 = t) ∧
    (trySummary (summary 0) = none → trySummary (summary 1) = none →
      (afterExhaustion summary msgs tc acc).1 =
        (if acc ≠ [] then joinNL acc else synthFallback tc.length)) ∧
    (∀ summary2 : Nat → SummaryResponse, summary2 0 = summary 0 → summary2 1 = summary 1 →
      afterExhaustion summary2 msgs tc acc = afterExhaustion summary msgs tc acc) ∧
    execute_telos_step errP chat summary tools dn pa ap rp rn st =
      ⟨true, some (afterExhaustion summary msgs tc acc).1, none⟩ := by
  have hacc : accInv acc := chatLoop_exhausted_accInv chat tools (nudgeMsg ap st)
    maxIterations 0 (initMsgs dn pa ap rp rn st) [] [] msgs tc acc accInv_nil hexh
  have hne : pystrip (afterExhaustion summary msgs tc acc).1 ≠ "" := by
    rcases hs0 : trySummary (summary 0) with _ | ⟨t, m⟩
    · rcases hs1 : trySummary (summary 1) with _ | ⟨t, m⟩
      · rw [afterExhaustion_none _ _ _ _ hs0 hs1]
        by_cases ha : acc = []
        · subst ha
          rw [show (if ([] : List String) ≠ [] then joinNL [] else synthFallback tc.length,
              msgs ++ [mkUser summaryPrompt0] ++ [mkUser summaryPrompt1]).1
            = synthFallback tc.length from rfl]
          exact synthFallback_ne_empty _
        · rw [show (if acc ≠ [] then joinNL acc else synthFallback tc.length,
              msgs ++ [mkUser summaryPrompt0] ++ [mkUser summaryPrompt1]).1
            = if acc ≠ [] then joinNL acc else synthFallback tc.length from rfl,
            if_pos ha]
          exact pystrip_joinNL_ne_empty acc ha hacc
      · rw [afterExhaustion_some1 _ _ _ _ _ _ hs0 hs1]
        exact trySummary_strip _ _ _ hs1
    · rw [afterExhaustion_some0 _ _ _ _ _ _ hs0]
      exact trySummary_strip _ _ _ hs0
  refine ⟨?_, ?_, ?_, ?_, ?_⟩
  · intro t m h
    rw [afterExhaustion_some0 _ _ _ _ _ _ h]
  · intro t m h0 h1
    rw [afterExhaustion_some1 _ _ _ _ _ _ h0 h1]
  · intro h0 h1
    rw [afterExhaustion_none _ _ _ _ h0 h1]
  · intro s2 h0 h1
    unfold afterExhaustion
    rw [h0, h1]
  · rw [execute_exhausted _ _ _ _ _ _ _ _ _ _ _ _ _ hexh]
    simp [finalCheck, hne]

/-- Witness for C6: a model that keeps calling tools for all eight
iterations with empty summary responses exhausts the budget and the
step still succeeds with the fallback result. -/
theorem C6_forced_summary_fallback_witness :
    ∃ (m : List Msg) (t a : List String),
      chatLoop chatAlwaysTool toolsErr (nudgeMsg "" "s") maxIterations 0
        (initMsgs "" "" "" "" "" "s") [] [] = .exhausted m t a ∧
      execute_telos_step errPJson chatAlwaysTool summaryEmpty toolsErr "" "" "" "" "" "s" =
        ⟨true, some (afterExhaustion summaryEmpty m t a).1, none⟩ := by
  obtain ⟨m, t, a, hexh⟩ : ∃ m t a, chatLoop chatAlwaysTool toolsErr (nudgeMsg "" "s")
      maxIterations 0 (initMsgs "" "" "" "" "" "s") [] [] = .exhausted m t a :=
    ⟨_, _, _, rfl⟩
  exact ⟨m, t, a, hexh, (C6_forced_summary_fallback errPJson chatAlwaysTool summaryEmpty
    toolsErr "" "" "" "" "" "s" m t a hexh).2.2.2.2⟩

/-- Counterexample to C4 as stated: tool dispatch always errors, the
model keeps calling tools every iteration and returns empty content to
the forced-summary calls, yet the step is recorded as a success (the
synthesized fallback is a non-empty final result), and the scheduler
advances `current_step` instead of leaving it unchanged. -/
theorem C4_counterexample :
    errPJson (toolsErr 0) = true ∧ errPJson (toolsErr 1) = true ∧
    errPJson (toolsErr 2) = true ∧ errPJson (toolsErr 3) = true ∧
    errPJson (toolsErr 4) = true ∧ errPJson (toolsErr 5) = true ∧
    errPJson (toolsErr 6) = true ∧ errPJson (toolsErr 7) = true ∧
    execute_telos_step errPJson chatAlwaysTool summaryEmpty toolsErr "" "" "" "" "" "s" =
      ⟨true, some "Step completed (8 tool calls executed).", none⟩ ∧
    processAgentBody "a1" ["s"] 0
        ⟨true, some "Step completed (8 tool calls executed).", none⟩ =
      [SchedEvent.execStep 0 "s",
       SchedEvent.writeProgress 1 0 "completed" "Step completed (8 tool calls executed).",
       SchedEvent.setState "completed",
       SchedEvent.addLog "a1" 0 "s" "Step completed (8 tool calls executed)." true] := by
  refine ⟨rfl, rfl, rfl, rfl, rfl, rfl, rfl, rfl, ?_, ?_⟩
  · rfl
  · rfl

/-- Claim C4 (amended: in the stated scenario — every tool dispatch
errors, the model keeps calling tools each iteration with empty content
and returns empty content to the forced-summary calls — the engine
falls back to the synthesized summary and records the step as a
SUCCESS, so the scheduler stores `current_step + 1` and appends a
success log entry; the failure with "Tool execution returned an error"
and unchanged `current_step`, retried identically on the next cycle,
occurs instead when the conversation ends with a whitespace-only
no-tool-call response after an errored tool call). -/
theorem C4_retry_on_failure_amended (errP : String → Bool) (chat : Nat → ChatResponse)
    (summary : Nat → SummaryResponse) (tools : Nat → String)
    (dn pa ap rp rn st agent_id : String) (steps : List String) (cs : Nat) :
    ((∀ n, ∃ am, chat n = .response 200 (some am) ∧ am.tool_calls ≠ [] ∧
        pystrip am.content = "") →
     (∀ k, trySummary (summary k) = none) →
     ∃ N, execute_telos_step errP chat summary tools dn pa ap rp rn st =
        ⟨true, some (synthFallback N), none⟩ ∧
      (cs < steps.length →
        SchedEvent.writeProgress (cs + 1) cs "completed"
            (logText ⟨true, some (synthFallback N), none⟩)
          ∈ processAgentBody agent_id steps cs ⟨true, some (synthFallback N), none⟩ ∧
        SchedEvent.addLog agent_id cs (steps.getD cs "")
            (logText ⟨true, some (synthFallback N), none⟩) true
          ∈ processAgentBody agent_id steps cs ⟨true, some (synthFallback N), none⟩)) ∧
    (∀ am0 am1, chat 0 = .response 200 (some am0) → am0.tool_calls ≠ [] →
      errP (tools 0) = true →
      chat 1 = .response 200 (some am1) → am1.tool_calls = [] →
      am1.content ≠ "" → pystrip am1.content = "" →
      execute_telos_step errP chat summary tools dn pa ap rp rn st =
        ⟨false, some "", some "Tool execution returned an error"⟩ ∧
      (cs < steps.length →
        SchedEvent.writeProgress cs cs "failed"
            (logText ⟨false, some "", some "Tool execution returned an error"⟩)
          ∈ processAgentBody agent_id steps cs
              ⟨false, some "", some "Tool execution returned an error"⟩ ∧
        SchedEvent.addLog agent_id cs (steps.getD cs "")
            (logText ⟨false, some "", some "Tool execution returned an error"⟩) false
          ∈ processAgentBody agent_id steps cs
              ⟨false, some "", some "Tool execution returned an error"⟩)) := by
  constructor
  · intro hall hsum
    obtain ⟨m, t, hexh⟩ := chatLoop_allTools_exhausts chat tools (nudgeMsg ap st) hall
      maxIterations 0 (initMsgs dn pa ap rp rn st) [] []
    refine ⟨t.length, ?_, ?_⟩
    · rw [execute_exhausted _ _ _ _ _ _ _ _ _ _ _ _ _ hexh,
        afterExhaustion_none _ _ _ _ (hsum 0) (hsum 1)]
      have hfin : (if ([] : List String) ≠ [] then joinNL [] else synthFallback t.length,
          m ++ [mkUser summaryPrompt0] ++ [mkUser summaryPrompt1]).1
          = synthFallback t.length := rfl
      rw [hfin]
      simp [finalCheck, synthFallback_ne_empty t.length]
    · intro hcs
      have hne0 : steps ≠ [] := by
        intro hh
        rw [hh] at hcs
        simp at hcs
      have h1' := not_le.mpr hcs
      constructor <;> simp [processAgentBody, hne0, h1']
  · intro am0 am1 h0 h0t herr h1 h1t h1c h1b
    have htne : (execCalls tools am0.tool_calls
        (initMsgs dn pa ap rp rn st ++ [mkAssistant am0.content am0.tool_calls]) []).2
        ≠ [] := by
      rw [execCalls_snd]
      simp [h0t]
    have key : chatLoop chat tools (nudgeMsg ap st) maxIterations 0
        (initMsgs dn pa ap rp rn st) [] [] =
        .done am1.content ((execCalls tools am0.tool_calls
          (initMsgs dn pa ap rp rn st ++ [mkAssistant am0.content am0.tool_calls]) []).1
          ++ [mkAssistant am1.content am1.tool_calls]) := by
      rw [show maxIterations = 7 + 1 from rfl, chatLoop_ok _ _ _ _ _ _ _ _ _ h0,
        if_neg (fun hh => h0t hh.1), if_neg (fun hh => h0t hh.2.1), if_neg h0t,
        show (7 : Nat) = 6 + 1 from rfl, chatLoop_ok _ _ _ _ _ _ _ _ _ h1,
        if_neg (fun hh => one_ne_zero hh.2.1), if_pos ⟨h1c, h1t, htne⟩]
    have hterr : toolHadError errP ((execCalls tools am0.tool_calls
        (initMsgs dn pa ap rp rn st ++ [mkAssistant am0.content am0.tool_calls]) []).1
        ++ [mkAssistant am1.content am1.tool_calls]) = true := by
      unfold toolHadError
      rw [List.any_eq_true]
      refine ⟨mkTool (tools 0), ?_, ?_⟩
      · refine List.mem_append.mpr (Or.inl ?_)
        have := execCalls_mem_tool tools am0.tool_calls
          (initMsgs dn pa ap rp rn st ++ [mkAssistant am0.content am0.tool_calls])
          ([] : List String) h0t
        simpa using this
      · simp [mkTool, herr]
    constructor
    · rw [execute_done _ _ _ _ _ _ _ _ _ _ _ _ key]
      simp [finalCheck, h1b, hterr]
    · intro hcs
      have hne0 : steps ≠ [] := by
        intro hh
        rw [hh] at hcs
        simp at hcs
      have h1' := not_le.mpr hcs
      constructor <;> simp [processAgentBody, hne0, h1']

/-- Witness for the amended C4: the always-erroring always-tool-calling
scenario succeeds with the synthesized fallback, and the
whitespace-final scenario fails and leaves the stored index at 0. -/
theorem C4_retry_on_failure_amended_witness :
    (∃ N, execute_telos_step errPJson chatAlwaysTool summaryEmpty toolsErr
        "" "" "" "" "" "s" = ⟨true, some (synthFallback N), none⟩ ∧
      (0 < (["s"] : List String).length →
        SchedEvent.writeProgress 1 0 "completed"
            (logText ⟨true, some (synthFallback N), none⟩)
          ∈ processAgentBody "a1" ["s"] 0 ⟨true, some (synthFallback N), none⟩ ∧
        SchedEvent.addLog "a1" 0 ((["s"] : List String).getD 0 "")
            (logText ⟨true, some (synthFallback N), none⟩) true
          ∈ processAgentBody "a1" ["s"] 0 ⟨true, some (synthFallback N), none⟩)) ∧
    execute_telos_step errPJson chatToolThenBlank summaryEmpty toolsErr
      "" "" "" "" "" "s" = ⟨false, some "", some "Tool execution returned an error"⟩ := by
  constructor
  · exact (C4_retry_on_failure_amended errPJson chatAlwaysTool summaryEmpty toolsErr
      "" "" "" "" "" "s" "a1" ["s"] 0).1
      (fun n => ⟨⟨"", [⟨"cast_vote", []⟩]⟩, rfl, by decide, rfl⟩)
      (fun k => rfl)
  · exact ((C4_retry_on_failure_amended errPJson chatToolThenBlank summaryEmpty toolsErr
      "" "" "" "" "" "s" "a1" ["s"] 0).2 ⟨"", [⟨"join_realm", []⟩]⟩ ⟨" ", []⟩
      rfl (by decide) rfl rfl rfl (by decide) (by decide)).1

end Geister
